import Mathlib

/-!
Verification development for the RLR (Record Linkage Review) backend.

The definitions below are a shallow embedding of `src/backend/rlr.py`
(the `rlr` class) together with the navigation helpers of
`src/pages/02_Linkage_Review.py` and `src/pages/02_review.py`.

Modelling conventions:
* A pandas DataFrame is a `Table`: an ordered list of column names plus an
  ordered list of rows, each row an association list from column name to a
  scalar `Val`.  After `load_comp_pairs` the row position plays the role of
  the dense `0..N-1` integer index produced by `reset_index`.
* Scalar cell values are `Val`: strings, integers (the `rlr_label_ind`
  column), or timestamps (what `datetime.datetime.now()` returns, modelled
  as a natural number).  Missing values (pandas `NaN`) are not modelled;
  consequently `DataFrame.count()` equals the number of rows.
* `datetime.datetime.now()` is modelled by an explicit `now : Nat`
  argument to `save_label_or_note`.
* Fallible operations return `Except Err _`; Python `assert` failures and
  raised exceptions become `Except.error`.  `warnings.warn` calls become an
  extra `List Warn` component of the result.
* Writing a file (`save_comp_df`) is modelled by returning the
  `(path, table)` pair that would be written; reading a file is modelled by
  looking the path up in an explicit file system `FS`.
-/

deriving instance DecidableEq for Except

/-- Python's `str.lower()` (character-wise lowering, as `String.toLower`,
stated on the character list so that it evaluates inside the kernel). -/
def pyLower (s : String) : String := ⟨s.data.map Char.toLower⟩

/-- A scalar cell value of a data table. -/
inductive Val
  | s (x : String)
  | i (x : Int)
  | t (x : Nat)
  deriving DecidableEq

/-- One row of a table: an association list from column name to value.
`rlr.py` never has duplicate column names, and validated accesses always
hit existing keys. -/
abbrev Row := List (String × Val)

/-- Value of column `c` in row `r` (first matching key, as `dict`/pandas
lookup).  Validated accesses in the source only read existing columns; the
default stands in for pandas' `KeyError`. -/
def rowGet (r : Row) (c : String) : Val :=
  match r with
  | [] => Val.s ""
  | (c', v) :: rest => if c' = c then v else rowGet rest c

/-- Assign column `c` of row `r` to `v` (replace in place, else append),
modelling a `df.loc[i, c] = v` cell write. -/
def rowSet (r : Row) (c : String) (v : Val) : Row :=
  match r with
  | [] => [(c, v)]
  | (c', w) :: rest => if c' = c then (c, v) :: rest else (c', w) :: rowSet rest c v

/-- An in-memory data table (pandas DataFrame). -/
structure Table where
  cols : List String
  rows : List Row
  deriving DecidableEq

/-- `c in df` — column membership. -/
def Table.hasCol (t : Table) (c : String) : Bool := t.cols.contains c

/-- Add a column with a constant value when absent (mirrors
`if comp_var not in comp_df: comp_df[comp_var] = v`). -/
def Table.addColIfAbsent (t : Table) (c : String) (v : Val) : Table :=
  if t.hasCol c then t else ⟨t.cols ++ [c], t.rows.map (fun r => rowSet r c v)⟩

/-- `df.loc[i, c]` on the dense positional index. -/
def Table.getCell (t : Table) (i : Nat) (c : String) : Val := rowGet (t.rows.getD i []) c

/-- `df.loc[i, c] = v` on the dense positional index. -/
def Table.setCell (t : Table) (i : Nat) (c : String) (v : Val) : Table :=
  ⟨t.cols, t.rows.set i (rowSet (t.rows.getD i []) c v)⟩

/-- The tuple of values of the columns `ids` in row `r` (a pandas index
entry after `set_index(ids)`). -/
def idTuple (ids : List String) (r : Row) : List Val := ids.map (fun c => rowGet r c)

/-- `vs` all occur among `cols` (mirrors `pd.Series(vs).isin(df.columns).all()`). -/
def subsetCols (vs : List String) (cols : List String) : Bool :=
  vs.all (fun v => cols.contains v)

/-- `df.set_index(ids).index.is_unique`. -/
def Table.idsUnique (t : Table) (ids : List String) : Bool :=
  decide ((t.rows.map (idTuple ids)).Nodup)

/-- `v in df.index` after `set_index(id_vars)`.  As in the source's probe
loop (see the TODO at `rlr.py:164`), only the first id variable is used. -/
def Table.indexHas (t : Table) (ids : List String) (v : Val) : Bool :=
  t.rows.any (fun r => rowGet r (ids.headD "") == v)

/-- Python exceptions raised by the backend. -/
inductive Err
  | assertionError (msg : String)
  | notImplementedError (msg : String)
  | fileNotFoundError (p : String)
  | zeroDivisionError
  | typeError (msg : String)
  deriving DecidableEq

/-- Non-fatal `warnings.warn` events, by call site. -/
inductive Warn
  | nonUniqueCompIds
  | lowFoundPerc
  | notReadyToSave
  | notReadyToReview
  | notReadyToPacket
  | noPathPacket
  | unfoundIds (i : Int)
  | countsMismatch
  | cannotAutosave
  deriving DecidableEq

/-- A variable-comparison group of the schema (`set_var_comp_schema`);
the three mandatory dict keys become structure fields. -/
structure VarGroup where
  name : String
  lvars : List String
  rvars : List String
  deriving DecidableEq

/-- Class constant `DEFAULT_LABELS`. -/
def DEFAULT_LABELS : List String := ["Match", "Not a Match"]

/-- Class constant `REV_LABEL_COL`. -/
def REV_LABEL_COL : String := "rlr_label"

/-- Class constant `REV_LABEL_IND_COL`. -/
def REV_LABEL_IND_COL : String := "rlr_label_ind"

/-- Class constant `REV_DATE_COL`. -/
def REV_DATE_COL : String := "rlr_modified"

/-- Class constant `REV_NOTE_COL`. -/
def REV_NOTE_COL : String := "rlr_note"

/-- Class constant `COMP_EXIST_THRESH` (0.8; `load_comp_pairs` below takes
the threshold as an argument so that properties can quantify over it). -/
def COMP_EXIST_THRESH : ℚ := mkRat 4 5

/-- The state of an `rlr` instance.  Attributes that Python creates only on
first load (`dataL`, `id_vars_l`, `comp_df`, ...) carry default values here
and are guarded by the corresponding `_loaded` flags, exactly as in the
source. -/
structure RLR where
  dataL_loaded : Bool := false
  dataR_loaded : Bool := false
  comps_loaded : Bool := false
  var_schema_loaded : Bool := false
  ready_to_review : Bool := false
  label_choices : List String := DEFAULT_LABELS
  autosave : Bool := false
  id_vars_l : List String := []
  id_vars_r : List String := []
  dataL : Table := ⟨[], []⟩
  dataR : Table := ⟨[], []⟩
  dataL_file_path : Option String := none
  dataR_file_path : Option String := none
  comp_df : Table := ⟨[], []⟩
  comp_pairs_file_path : Option String := none
  var_schema : List VarGroup := []
  curr_comp_pair_index : Int := 0
  deriving DecidableEq

/-- `rlr()` — the constructor without a review-packet path. -/
def initRLR : RLR := {}

/-- `check_ready_to_review` (rlr.py:44-49). -/
def check_ready_to_review (s : RLR) : RLR :=
  let data_loaded := s.dataL_loaded && s.dataR_loaded && s.comps_loaded
  if data_loaded && s.var_schema_loaded && decide (0 < s.label_choices.length) then
    { s with ready_to_review := true }
  else
    { s with ready_to_review := false }

/-- A data source argument: either a `str` path or a DataFrame. -/
inductive Src
  | path (p : String)
  | df (t : Table)

/-- The ambient file system: tabular files by path. -/
abbrev FS := List (String × Table)

/-- The extension is one of the two supported tabular formats. -/
def extOk (p : String) : Bool :=
  ".csv".data.isSuffixOf p.data || ".dta".data.isSuffixOf p.data

/-- Dispatch on the file extension and read the file (`read_csv` /
`read_stata`; unsupported extensions raise `NotImplementedError`). -/
def readTable (fs : FS) (p : String) : Except Err Table :=
  if extOk p then
    match fs.lookup p with
    | some t => .ok t
    | none => .error (.fileNotFoundError p)
  else .error (.notImplementedError "Filetype must be either .csv or .dta")

/-- Resolve a `Src` to a table plus the path it was loaded from, if any. -/
def resolveSrc (fs : FS) (src : Src) : Except Err (Table × Option String) :=
  match src with
  | .path p =>
    match readTable fs p with
    | .ok t => .ok (t, some p)
    | .error e => .error e
  | .df t => .ok (t, none)

/-- `load_dataset` (rlr.py:51-111).  `id_vars` is already a list (a Python
`str` argument corresponds to a singleton list).  The final invalidation of
`var_schema_loaded` and `comps_loaded` (lines 110-111) applies on every
successful path and is folded into each side's record update. -/
def load_dataset (fs : FS) (s : RLR) (src : Src) (id_vars : List String)
    (side : String) : Except Err RLR :=
  match resolveSrc fs src with
  | .error e => .error e
  | .ok (data_df, path?) =>
    let side := pyLower side
    if !(side == "r" || side == "l") then
      .error (.assertionError "Side argument unrecognized. It should be r or l.")
    else
      let id_overlap : List String :=
        if side == "r" && s.dataL_loaded then
          s.id_vars_l.filter (fun v => id_vars.contains v)
        else if side == "l" && s.dataR_loaded then
          s.id_vars_r.filter (fun v => id_vars.contains v)
        else []
      if id_overlap.length ≠ 0 then
        .error (.assertionError "Currently cannot handle overlapping id variables")
      else if side == "l" then
        if !(subsetCols id_vars data_df.cols) then
          .error (.assertionError "id variables not found in the left data set")
        else if !(data_df.idsUnique id_vars) then
          .error (.assertionError "id variables do not uniquely identify the left data set")
        else
          .ok { s with id_vars_l := id_vars, dataL := data_df, dataL_loaded := true,
                       dataL_file_path := path?,
                       var_schema_loaded := false, comps_loaded := false }
      else
        if !(subsetCols id_vars data_df.cols) then
          .error (.assertionError "id_vars_r not found in the right data set")
        else if !(data_df.idsUnique id_vars) then
          .error (.assertionError "id variables do not uniquely identify the right data set")
        else
          .ok { s with id_vars_r := id_vars, dataR := data_df, dataR_loaded := true,
                       dataR_file_path := path?,
                       var_schema_loaded := false, comps_loaded := false }

/-- The review-metadata columns added by `load_comp_pairs` when absent
(rlr.py:154-158): `rlr_label_ind` defaults to the integer 0, the other
three to the empty string. -/
def addDefaultCols (t : Table) : Table :=
  let t := t.addColIfAbsent REV_LABEL_IND_COL (Val.i 0)
  let t := t.addColIfAbsent REV_LABEL_COL (Val.s "")
  let t := t.addColIfAbsent REV_DATE_COL (Val.s "")
  t.addColIfAbsent REV_NOTE_COL (Val.s "")

/-- The existence probe of one comparison row (rlr.py:164-167): `true` when
the left or right id value is absent from the corresponding dataset. -/
def probeRow (s : RLR) (r : Row) : Bool :=
  let l_id := rowGet r (s.id_vars_l.headD "")
  let r_id := rowGet r (s.id_vars_r.headD "")
  !(s.dataL.indexHas s.id_vars_l l_id) || !(s.dataR.indexHas s.id_vars_r r_id)

/-- `load_comp_pairs` (rlr.py:113-180).  `thresh` stands for the class
constant `COMP_EXIST_THRESH`.  An empty comparison table makes the
`perc_found` division raise `ZeroDivisionError`, as in the source. -/
def load_comp_pairs (fs : FS) (s : RLR) (src : Src) (thresh : ℚ) :
    Except Err (RLR × List Warn) :=
  if !s.dataL_loaded then
    .error (.assertionError "Load a data file before loading a comparison file")
  else if !s.dataR_loaded then
    .error (.assertionError "Load a data file before loading a comparison file")
  else
    match resolveSrc fs src with
    | .error e => .error e
    | .ok (comp_df, path?) =>
      if !(subsetCols s.id_vars_l comp_df.cols) then
        .error (.assertionError "Left data ids not found in passed comparison file.")
      else if !(subsetCols s.id_vars_r comp_df.cols) then
        .error (.assertionError "Right data ids not found in passed comparison file.")
      else
        let warns₁ : List Warn :=
          if !(comp_df.idsUnique (s.id_vars_l ++ s.id_vars_r)) then
            [.nonUniqueCompIds]
          else []
        let comp_df := addDefaultCols comp_df
        let comp_df2 : Table :=
          if 0 < thresh then
            ⟨comp_df.cols,
             comp_df.rows.map (fun r =>
               if probeRow s r then rowSet r REV_LABEL_IND_COL (Val.i (-1)) else r)⟩
          else comp_df
        let num_missing : Nat :=
          if 0 < thresh then comp_df.rows.countP (fun r => probeRow s r) else 0
        let n := comp_df.rows.length
        if n = 0 then .error .zeroDivisionError
        else
          let perc_found : ℚ := mkRat ((n : Int) - (num_missing : Int)) n
          let warns₂ : List Warn := if perc_found < thresh then [.lowFoundPerc] else []
          let s := { s with comp_df := comp_df2, comps_loaded := true }
          let s := check_ready_to_review s
          let s := { s with curr_comp_pair_index := 0, comp_pairs_file_path := path? }
          .ok (s, warns₁ ++ warns₂)

/-- `set_var_comp_schema` (rlr.py:216-245).  The per-group key-presence
asserts are intrinsic to the `VarGroup` structure; the per-group column
checks are folded into one conjunction with the same success condition. -/
def set_var_comp_schema (s : RLR) (var_schema : List VarGroup) : Except Err RLR :=
  if !s.dataL_loaded then
    .error (.assertionError "Load data files before loading a comparison schema")
  else if !s.dataR_loaded then
    .error (.assertionError "Load data files before loading a comparison schema")
  else if !(var_schema.all (fun g =>
      subsetCols g.lvars s.dataL.cols && subsetCols g.rvars s.dataR.cols)) then
    .error (.assertionError "Schema variables not found in the data sets")
  else
    .ok (check_ready_to_review
      { s with var_schema := var_schema, var_schema_loaded := true })

/-- `set_label_choices` (rlr.py:247-252).  The argument is intrinsically a
list of strings (so `str(opt)` is the identity); note that the source does
not call `check_ready_to_review` here. -/
def set_label_choices (s : RLR) (label_choices : List String) : Except Err RLR :=
  if label_choices.length = 0 then
    .error (.assertionError "The passed list of label choices must be non-empty")
  else
    .ok { s with label_choices := label_choices }

/-- `set_autosave` (rlr.py:254-261). -/
def set_autosave (s : RLR) (autosave_bool : Bool) : RLR × List Warn :=
  if autosave_bool && s.comp_pairs_file_path.isNone then
    (s, [.cannotAutosave])
  else
    ({ s with autosave := autosave_bool }, [])

/-- Result payload of `get_comp_pair`: the raw record pair, or the
schema-grouped values (`name`, `lvals`, `rvals` per group). -/
inductive PairData
  | raw (l_rec r_rec : Row)
  | grouped (gs : List (String × List Val × List Val))
  deriving DecidableEq

/-- `df.loc[id_tuple]` on a dataset after `set_index(ids)`: the first row
whose id tuple matches (id uniqueness is validated at load time). -/
def Table.locById (t : Table) (ids : List String) (key : List Val) : Option Row :=
  t.rows.find? (fun r => idTuple ids r == key)

/-- `get_comp_pair` (rlr.py:263-317).  Returns `none` (plus a warning) for
a pair whose ids were flagged unfound at load time. -/
def get_comp_pair (s : RLR) (raw_or_grouped : String) (comp_ind? : Option Int) :
    Except Err (Option PairData × List Warn) :=
  if !s.dataL_loaded then
    .error (.assertionError "Load data files before getting a comparison pair")
  else if !s.dataR_loaded then
    .error (.assertionError "Load data files before getting a comparison pair")
  else if !s.comps_loaded then
    .error (.assertionError "Load comparison data file before getting a comparison pair")
  else
    let comp_ind := comp_ind?.getD s.curr_comp_pair_index
    if !(0 ≤ comp_ind && comp_ind ≤ (s.comp_df.rows.length : Int) - 1) then
      .error (.assertionError "Comparison index is out of bounds")
    else if s.comp_df.getCell comp_ind.toNat REV_LABEL_IND_COL == Val.i (-1) then
      .ok (none, [.unfoundIds comp_ind])
    else
      let row := s.comp_df.rows.getD comp_ind.toNat []
      let l_id := idTuple s.id_vars_l row
      let r_id := idTuple s.id_vars_r row
      match s.dataL.locById s.id_vars_l l_id, s.dataR.locById s.id_vars_r r_id with
      | some l_rec_data, some r_rec_data =>
        if raw_or_grouped == "raw" then
          .ok (some (.raw l_rec_data r_rec_data), [])
        else if raw_or_grouped == "grouped" then
          if !s.var_schema_loaded then
            .error (.assertionError "Must set the variable comparison schema before grouping data.")
          else
            .ok (some (.grouped (s.var_schema.map (fun g =>
              (g.name, g.lvars.map (fun v => rowGet l_rec_data v),
               g.rvars.map (fun v => rowGet r_rec_data v))))), [])
        else
          .error (.notImplementedError "Argument raw_or_grouped must be either raw or grouped")
      | _, _ => .error (.typeError "KeyError: comparison pair ids not found in data index")

/-- Insert-or-overwrite into a Python dict modelled as an association list
(overwriting keeps the key's position, as Python dicts do). -/
def dictInsert (d : List (Val × Nat)) (k : Val) (v : Nat) : List (Val × Nat) :=
  match d with
  | [] => [(k, v)]
  | (k', v') :: rest => if k' = k then (k, v) :: rest else (k', v') :: dictInsert rest k v

/-- Lookup in the dict model. -/
def dictGet? (d : List (Val × Nat)) (k : Val) : Option Nat :=
  match d with
  | [] => none
  | (k', v') :: rest => if k' = k then some v' else dictGet? rest k

/-- `sum(d.values())`. -/
def dictSum (d : List (Val × Nat)) : Nat := (d.map (fun kv => kv.2)).sum

/-- `get_label_counts` (rlr.py:319-346).  The label column holds no pandas
missing values in this model, so `count()` equals the number of rows and
the unlabeled count reduces to the number of empty-string labels.
`value_counts()` is modelled with first-occurrence ordering (its
by-frequency ordering only affects dict ordering, which no property here
depends on); the two `pop` calls become the filter over choice keys and the
empty string. -/
def get_label_counts (s : RLR) : Except Err (List (Val × Nat) × List Warn) :=
  if !s.comps_loaded then
    .error (.assertionError "Must have a comparison file loaded before generating a summary")
  else
    let labels := s.comp_df.rows.map (fun r => rowGet r REV_LABEL_COL)
    let no_label_num := labels.countP (fun v => v == Val.s "")
    let d : List (Val × Nat) := [(Val.s "Unlabeled", no_label_num)]
    let d := s.label_choices.foldl
      (fun d label => dictInsert d (Val.s label) (labels.countP (fun v => v == Val.s label))) d
    let labels_found := (labels.dedup.filter
        (fun v => !((s.label_choices.map Val.s).contains v) && !(v == Val.s ""))).map
      (fun v => (v, labels.countP (fun w => w == v)))
    let d := labels_found.foldl (fun d kv => dictInsert d kv.1 kv.2) d
    let warns : List Warn := if dictSum d ≠ s.comp_df.rows.length then [.countsMismatch] else []
    .ok (d, warns)

/-- `save_comp_df` (rlr.py:662-671): resolve the destination path and
"write" the current comparison table there (the write is modelled by
returning the path/table pair).  A `None` resolved path raises `TypeError`
inside `os.path.splitext`. -/
def save_comp_df (s : RLR) (comp_pairs_path? : Option String) :
    Except Err (String × Table) :=
  match comp_pairs_path?.orElse (fun _ => s.comp_pairs_file_path) with
  | none => .error (.typeError "expected str, bytes or os.PathLike object, not NoneType")
  | some p =>
    if extOk p then .ok (p, s.comp_df)
    else .error (.notImplementedError "Filetype must be either csv or dta")

/-- `save_label_or_note` (rlr.py:673-719).  `now` models the value of
`datetime.datetime.now()` at the timestamp write (line 715).  The middle
component of a successful result is the file write performed by autosave,
if any. -/
def save_label_or_note (s : RLR) (text : String) (label_or_note : String)
    (comp_ind? : Option Int) (comp_pairs_path? : Option String) (now : Nat) :
    Except Err (RLR × Option (String × Table) × List Warn) :=
  if !s.ready_to_review then
    .ok (s, none, [.notReadyToSave])
  else
    let comp_ind := comp_ind?.getD s.curr_comp_pair_index
    if !(0 ≤ comp_ind && comp_ind ≤ (s.comp_df.rows.length : Int) - 1) then
      .error (.assertionError "Comparison index is out of bounds")
    else
      let i := comp_ind.toNat
      let next : Except Err RLR :=
        if label_or_note == "label" then
          if !(("" :: s.label_choices).contains text) then
            .error (.assertionError "Label passed is not among valid choices")
          else
            let t1 := s.comp_df.setCell i REV_LABEL_COL (Val.s text)
            let t2 := t1.setCell i REV_LABEL_IND_COL (Val.i (if text ≠ "" then 1 else 0))
            .ok { s with comp_df := t2 }
        else if label_or_note == "note" then
          .ok { s with comp_df := s.comp_df.setCell i REV_NOTE_COL (Val.s text) }
        else
          .error (.notImplementedError "Unrecognized value of label_or_note in function.")
      match next with
      | .error e => .error e
      | .ok s =>
        let s := { s with comp_df := s.comp_df.setCell i REV_DATE_COL (Val.t now) }
        if s.autosave then
          match save_comp_df s comp_pairs_path? with
          | .error e => .error e
          | .ok w => .ok (s, some w, [])
        else
          .ok (s, none, [])

/-- The review-packet document (rlr.py:182-214 and 721-743).  The seven
mandatory keys are structure fields (so the key-presence asserts of
`load_review_packet` hold intrinsically); the optional
`curr_comp_pair_index` key is an `Option`. -/
structure RevPacket where
  file_L : String
  file_L_ids : List String
  file_R : String
  file_R_ids : List String
  file_comps : String
  var_group_schema : List VarGroup
  label_choices : List String
  curr_comp_pair_index : Option Int
  deriving DecidableEq

/-- `get_review_packet` (rlr.py:721-743). -/
def get_review_packet (s : RLR) : Option RevPacket × List Warn :=
  if !s.ready_to_review then
    (none, [.notReadyToPacket])
  else
    match s.dataL_file_path, s.dataR_file_path, s.comp_pairs_file_path with
    | some pL, some pR, some pC =>
      (some ⟨pL, s.id_vars_l, pR, s.id_vars_r, pC, s.var_schema, s.label_choices,
             some s.curr_comp_pair_index⟩, [])
    | _, _, _ => (none, [.noPathPacket])

/-- `load_review_packet` (rlr.py:182-214). -/
def load_review_packet (fs : FS) (s : RLR) (pkt : RevPacket) :
    Except Err (RLR × List Warn) :=
  match load_dataset fs s (.path pkt.file_L) pkt.file_L_ids "l" with
  | .error e => .error e
  | .ok s =>
    match load_dataset fs s (.path pkt.file_R) pkt.file_R_ids "r" with
    | .error e => .error e
    | .ok s =>
      match load_comp_pairs fs s (.path pkt.file_comps) COMP_EXIST_THRESH with
      | .error e => .error e
      | .ok (s, w) =>
        match set_var_comp_schema s pkt.var_group_schema with
        | .error e => .error e
        | .ok s =>
          match set_label_choices s pkt.label_choices with
          | .error e => .error e
          | .ok s =>
            let s :=
              match pkt.curr_comp_pair_index with
              | some rev_ind =>
                if 0 ≤ rev_ind ∧ rev_ind ≤ (s.comp_df.rows.length : Int) - 1 then
                  { s with curr_comp_pair_index := rev_ind }
                else s
              | none => s
            .ok (check_ready_to_review s, w)

/-- `next_pair` (02_Linkage_Review.py:23-26; identical in
02_review.py:19-22). -/
def next_pair (s : RLR) : RLR :=
  if s.curr_comp_pair_index < (s.comp_df.rows.length : Int) - 1 then
    { s with curr_comp_pair_index := s.curr_comp_pair_index + 1 }
  else s

/-- `prev_pair` (02_Linkage_Review.py:41-44). -/
def prev_pair (s : RLR) : RLR :=
  if s.curr_comp_pair_index > 0 then
    { s with curr_comp_pair_index := s.curr_comp_pair_index - 1 }
  else s

/-- `prev_pair` as written in 02_review.py:24-27, whose guard tests
`< 0` where its sibling page tests `> 0`. -/
def prev_pair_02review (s : RLR) : RLR :=
  if s.curr_comp_pair_index < 0 then
    { s with curr_comp_pair_index := s.curr_comp_pair_index - 1 }
  else s

/-- The `while` loop of `next_unlabeled_pair` (02_Linkage_Review.py:36-38):
advance `curr` while it is short of `nlast` and the label at `curr` is
non-empty; return the final position. -/
def scanNext (t : Table) (nlast curr : Nat) : Nat :=
  if curr < nlast ∧ t.getCell curr REV_LABEL_COL ≠ Val.s "" then
    scanNext t nlast (curr + 1)
  else curr
termination_by nlast - curr
decreasing_by omega

/-- `next_unlabeled_pair` (02_Linkage_Review.py:28-39). -/
def next_unlabeled_pair (s : RLR) : RLR :=
  let n := s.comp_df.rows.length
  if s.curr_comp_pair_index == (n : Int) - 1 then s
  else
    let start := (s.curr_comp_pair_index + 1).toNat
    { s with curr_comp_pair_index := (scanNext s.comp_df (n - 1) start : Int) }

/-! ### Concrete demonstration data (used by witnesses and counterexamples) -/

/-- Demo left dataset: two records keyed by `ida`. -/
def demoL : Table :=
  ⟨["ida", "name"],
   [[("ida", Val.s "1"), ("name", Val.s "A")],
    [("ida", Val.s "2"), ("name", Val.s "B")]]⟩

/-- Demo right dataset: one record keyed by `idb`. -/
def demoR : Table :=
  ⟨["idb", "valx"], [[("idb", Val.s "1"), ("valx", Val.s "X")]]⟩

/-- Demo comparison file as it sits on disk (no review-metadata columns). -/
def demoCompIn : Table :=
  ⟨["ida", "idb"],
   [[("ida", Val.s "1"), ("idb", Val.s "1")],
    [("ida", Val.s "2"), ("idb", Val.s "1")]]⟩

/-- Demo file system. -/
def demoFS : FS := [("L.csv", demoL), ("R.csv", demoR), ("C.csv", demoCompIn)]

/-- Demo field-group schema. -/
def demoSchema : List VarGroup := [⟨"Name", ["name"], ["valx"]⟩]

/-- One fully-materialized comparison row (all ids resolvable). -/
def demoCompRow (a b : String) : Row :=
  [("ida", Val.s a), ("idb", Val.s b), ("rlr_label_ind", Val.i 0),
   ("rlr_label", Val.s ""), ("rlr_modified", Val.s ""), ("rlr_note", Val.s "")]

/-- Demo comparison table after a load (metadata columns present). -/
def demoComp : Table :=
  ⟨["ida", "idb", "rlr_label_ind", "rlr_label", "rlr_modified", "rlr_note"],
   [demoCompRow "1" "1", demoCompRow "2" "1"]⟩

/-- A fully-loaded, review-ready demo session. -/
def demoReady : RLR :=
  { dataL_loaded := true, dataR_loaded := true, comps_loaded := true,
    var_schema_loaded := true, ready_to_review := true,
    label_choices := DEFAULT_LABELS, autosave := false,
    id_vars_l := ["ida"], id_vars_r := ["idb"],
    dataL := demoL, dataR := demoR,
    dataL_file_path := some "L.csv", dataR_file_path := some "R.csv",
    comp_df := demoComp, comp_pairs_file_path := some "C.csv",
    var_schema := demoSchema, curr_comp_pair_index := 0 }

/-- Extract the success state of a fallible operation (demo plumbing). -/
def okOr (e : Except Err RLR) (d : RLR) : RLR :=
  match e with
  | .ok s => s
  | .error _ => d

/-- Extract the success state/warnings pair (demo plumbing). -/
def okPairOr (e : Except Err (RLR × List Warn)) (d : RLR × List Warn) : RLR × List Warn :=
  match e with
  | .ok r => r
  | .error _ => d

/-- Demo session with just the two datasets loaded. -/
def demoPre : RLR :=
  { initRLR with dataL_loaded := true, dataR_loaded := true,
                 id_vars_l := ["ida"], id_vars_r := ["idb"],
                 dataL := demoL, dataR := demoR }

/-- Result of loading the demo comparison file into `demoPre`. -/
def demoLoadedPair : RLR × List Warn :=
  okPairOr (load_comp_pairs demoFS demoPre (.path "C.csv") COMP_EXIST_THRESH) (initRLR, [])

/-- A demo review packet (cursor saved at index 1). -/
def demoPacket : RevPacket :=
  ⟨"L.csv", ["ida"], "R.csv", ["idb"], "C.csv", demoSchema, DEFAULT_LABELS, some 1⟩

/-- Result of importing `demoPacket` into a fresh session. -/
def demoImportPair : RLR × List Warn :=
  okPairOr (load_review_packet demoFS initRLR demoPacket) (initRLR, [])

/-- Stages of the canonical demo session-construction chain. -/
def demoS1 : RLR := okOr (load_dataset demoFS initRLR (.path "L.csv") ["ida"] "l") initRLR

/-- Second stage: right dataset loaded. -/
def demoS2 : RLR := okOr (load_dataset demoFS demoS1 (.path "R.csv") ["idb"] "r") initRLR

/-- Third stage: comparison set loaded. -/
def demoS3Pair : RLR × List Warn :=
  okPairOr (load_comp_pairs demoFS demoS2 (.path "C.csv") COMP_EXIST_THRESH) (initRLR, [])

/-- Fourth stage: schema set. -/
def demoS4 : RLR := okOr (set_var_comp_schema demoS3Pair.1 demoSchema) initRLR

/-- Fifth stage: label choices set. -/
def demoS5 : RLR := okOr (set_label_choices demoS4 DEFAULT_LABELS) initRLR

/-- Re-loading the left dataset over the ready demo session. -/
def demoReload : RLR := okOr (load_dataset demoFS demoReady (.path "L.csv") ["ida"] "l") initRLR

/-- Demo comparison input whose second row references a missing right id. -/
def demoCompMissIn : Table :=
  ⟨["ida", "idb"],
   [[("ida", Val.s "1"), ("idb", Val.s "1")],
    [("ida", Val.s "2"), ("idb", Val.s "9")]]⟩

/-- Session whose comparison table carries labels inside and outside the
configured choices (for label-count properties). -/
def demoC8 : RLR :=
  { initRLR with comps_loaded := true, label_choices := DEFAULT_LABELS,
                 comp_df :=
      ⟨["ida", "idb", "rlr_label_ind", "rlr_label", "rlr_modified", "rlr_note"],
       [rowSet (demoCompRow "1" "1") "rlr_label" (Val.s "Match"),
        demoCompRow "2" "1",
        rowSet (demoCompRow "3" "1") "rlr_label" (Val.s "Weird")]⟩ }

/-- Session whose label choices contain the literal string "Unlabeled"
(the collision that breaks the label-count bookkeeping). -/
def demoClobber : RLR :=
  { initRLR with comps_loaded := true, label_choices := ["Unlabeled"],
                 comp_df := ⟨["rlr_label"], [[("rlr_label", Val.s "")]]⟩ }

/-- Session with several labeled rows for navigation demos:
labels "Match", "Match", "", "x" at indices 0..3. -/
def demoC6 : RLR :=
  { initRLR with comps_loaded := true,
                 comp_df :=
      ⟨["rlr_label"],
       [[("rlr_label", Val.s "Match")], [("rlr_label", Val.s "Match")],
        [("rlr_label", Val.s "")], [("rlr_label", Val.s "x")]]⟩ }

/-- "Strictly later" on `rlr_modified` cells: both timestamps strictly
ordered, or the old cell still the initial string placeholder (the column
default before any save) and the new one a timestamp. -/
def laterThan (before after : Val) : Bool :=
  match before, after with
  | .t x, .t y => decide (x < y)
  | .s _, .t _ => true
  | _, _ => false

/-- Comparison input whose single row resolves in both demo datasets but
already carries `rlr_label_ind = -1` from a previous session. -/
def demoCompPreMarked : Table :=
  ⟨["ida", "idb", "rlr_label_ind"],
   [[("ida", Val.s "1"), ("idb", Val.s "1"), ("rlr_label_ind", Val.i (-1))]]⟩

/-- Generic insert-fold over key/value pairs (proof device for the dict
built by `get_label_counts`). -/
def foldIns (d : List (Val × Nat)) (ps : List (Val × Nat)) : List (Val × Nat) :=
  ps.foldl (fun d kv => dictInsert d kv.1 kv.2) d

/-- Well-formed counter dict: every stored value is determined by its key
through `f`, and keys are distinct (proof device). -/
def dictWF (f : Val → Nat) (d : List (Val × Nat)) : Prop :=
  (∀ p ∈ d, p.2 = f p.1) ∧ (d.map Prod.fst).Nodup

/-! ### Basic lemmas about rows, tables and the readiness recomputation -/

theorem rowGet_rowSet_self (r : Row) (c : String) (v : Val) :
    rowGet (rowSet r c v) c = v := by
  induction r with
  | nil => simp [rowSet, rowGet]
  | cons hd tl ih =>
    obtain ⟨c', w⟩ := hd
    by_cases h : c' = c
    · simp [rowSet, h, rowGet]
    · simp only [rowSet, if_neg h, rowGet, ih]

theorem rowGet_rowSet_ne (r : Row) {c c' : String} (h : c ≠ c') (v : Val) :
    rowGet (rowSet r c v) c' = rowGet r c' := by
  induction r with
  | nil => simp [rowSet, rowGet, h]
  | cons hd tl ih =>
    obtain ⟨c₀, w⟩ := hd
    by_cases h₀ : c₀ = c
    · subst h₀
      simp [rowSet, rowGet, h]
    · simp only [rowSet, if_neg h₀, rowGet, ih]

/-- Positional row update: the recursion-friendly description of
`List.set` composed with `List.getD`. -/
theorem getD_set_rows (l : List Row) (i j : Nat) (r : Row) :
    (l.set i r).getD j [] = if i = j ∧ i < l.length then r else l.getD j [] := by
  induction l generalizing i j with
  | nil => simp [List.set]
  | cons hd tl ih =>
    cases i with
    | zero =>
      cases j with
      | zero => simp [List.set]
      | succ k => simp [List.set]
    | succ i' =>
      cases j with
      | zero => simp [List.set]
      | succ k =>
        simp only [List.set, List.getD_cons_succ, List.length_cons, ih]
        by_cases hij : i' = k
        · subst hij
          by_cases hlen : i' < tl.length
          · rw [if_pos ⟨rfl, hlen⟩, if_pos ⟨rfl, by omega⟩]
          · rw [if_neg (by omega), if_neg (by omega)]
        · rw [if_neg (by omega), if_neg (by omega)]

theorem setCell_rows_length (t : Table) (i : Nat) (c : String) (v : Val) :
    (t.setCell i c v).rows.length = t.rows.length := by
  simp [Table.setCell]

theorem setCell_cols (t : Table) (i : Nat) (c : String) (v : Val) :
    (t.setCell i c v).cols = t.cols := rfl

theorem getCell_setCell_self (t : Table) (i : Nat) (c : String) (v : Val)
    (h : i < t.rows.length) : (t.setCell i c v).getCell i c = v := by
  simp only [Table.setCell, Table.getCell, getD_set_rows]
  split
  · exact rowGet_rowSet_self _ _ _
  · next hcond => simp_all

theorem getCell_setCell_ne_col (t : Table) (i j : Nat) {c c' : String} (h : c ≠ c')
    (v : Val) : (t.setCell i c v).getCell j c' = t.getCell j c' := by
  simp only [Table.setCell, Table.getCell, getD_set_rows]
  split
  · next hcond =>
    obtain ⟨hij, hlen⟩ := hcond
    subst hij
    exact rowGet_rowSet_ne _ h v
  · rfl

theorem getCell_setCell_ne_row (t : Table) {i j : Nat} (h : i ≠ j) (c c' : String)
    (v : Val) : (t.setCell i c v).getCell j c' = t.getCell j c' := by
  simp only [Table.setCell, Table.getCell, getD_set_rows]
  split
  · next hcond => exact absurd hcond.1 h
  · rfl

theorem check_ready_ready (s : RLR) :
    (check_ready_to_review s).ready_to_review =
      (s.dataL_loaded && s.dataR_loaded && s.comps_loaded && s.var_schema_loaded &&
        decide (0 < s.label_choices.length)) := by
  simp only [check_ready_to_review]
  split
  · next hc => simp_all
  · next hc => simp_all

theorem check_ready_eta (s : RLR) :
    check_ready_to_review s =
      { s with ready_to_review :=
          s.dataL_loaded && s.dataR_loaded && s.comps_loaded && s.var_schema_loaded &&
            decide (0 < s.label_choices.length) } := by
  simp only [check_ready_to_review]
  split
  · next hc => simp_all
  · next hc => simp_all

theorem load_dataset_l_ok {fs : FS} {s : RLR} {src : Src} {ids : List String} {s' : RLR}
    (h : load_dataset fs s src ids "l" = .ok s') :
    ∃ tb, resolveSrc fs src = .ok (tb, s'.dataL_file_path) ∧
      s' = { s with id_vars_l := ids, dataL := tb, dataL_loaded := true,
                    dataL_file_path := s'.dataL_file_path,
                    var_schema_loaded := false, comps_loaded := false } := by
  have hside : pyLower "l" = "l" := by decide
  have hr : (("l":String) == "r") = false := by decide
  have hl : (("l":String) == "l") = true := by decide
  simp only [load_dataset, hside, hr, hl, Bool.false_and, Bool.true_and, Bool.false_eq_true,
    Bool.false_or, Bool.true_or, Bool.or_true, Bool.not_true, Bool.not_false,
    if_false, if_true, ite_true, ite_false] at h
  split at h
  · exact (Except.noConfusion h)
  · next data_df path? heq =>
    repeat' split at h
    all_goals first
      | exact (Except.noConfusion h)
      | (simp only [Except.ok.injEq] at h; subst h;
         exact ⟨data_df, by simpa using heq, by simp⟩)

theorem load_dataset_r_ok {fs : FS} {s : RLR} {src : Src} {ids : List String} {s' : RLR}
    (h : load_dataset fs s src ids "r" = .ok s') :
    ∃ tb, resolveSrc fs src = .ok (tb, s'.dataR_file_path) ∧
      s' = { s with id_vars_r := ids, dataR := tb, dataR_loaded := true,
                    dataR_file_path := s'.dataR_file_path,
                    var_schema_loaded := false, comps_loaded := false } := by
  have hside : pyLower "r" = "r" := by decide
  have hr : (("r":String) == "r") = true := by decide
  have hl : (("r":String) == "l") = false := by decide
  simp only [load_dataset, hside, hr, hl, Bool.false_and, Bool.true_and, Bool.false_eq_true,
    Bool.false_or, Bool.true_or, Bool.or_true, Bool.not_true, Bool.not_false,
    if_false, if_true, ite_true, ite_false] at h
  split at h
  · exact (Except.noConfusion h)
  · next data_df path? heq =>
    repeat' split at h
    all_goals first
      | exact (Except.noConfusion h)
      | (simp only [Except.ok.injEq] at h; subst h;
         exact ⟨data_df, by simpa using heq, by simp⟩)

theorem load_dataset_ok_inv {fs : FS} {s : RLR} {src : Src} {ids : List String}
    {side : String} {s' : RLR} (h : load_dataset fs s src ids side = .ok s') :
    s'.ready_to_review = s.ready_to_review ∧ s'.comps_loaded = false ∧
    s'.var_schema_loaded = false ∧ s'.label_choices = s.label_choices ∧
    s'.autosave = s.autosave ∧ s'.curr_comp_pair_index = s.curr_comp_pair_index := by
  simp only [load_dataset] at h
  split at h
  · exact (Except.noConfusion h)
  · repeat' split at h
    all_goals first
      | exact (Except.noConfusion h)
      | (simp only [Except.ok.injEq] at h; subst h; simp)

theorem load_comp_pairs_ok_fields {fs : FS} {s : RLR} {src : Src} {th : ℚ}
    {s' : RLR} {w : List Warn} (h : load_comp_pairs fs s src th = .ok (s', w)) :
    s'.curr_comp_pair_index = 0 ∧ s'.comps_loaded = true ∧
    s'.dataL_loaded = s.dataL_loaded ∧ s'.dataR_loaded = s.dataR_loaded ∧
    s'.var_schema_loaded = s.var_schema_loaded ∧ s'.label_choices = s.label_choices ∧
    s'.id_vars_l = s.id_vars_l ∧ s'.id_vars_r = s.id_vars_r ∧
    s'.dataL = s.dataL ∧ s'.dataR = s.dataR ∧
    s'.dataL_file_path = s.dataL_file_path ∧ s'.dataR_file_path = s.dataR_file_path ∧
    s'.var_schema = s.var_schema ∧ s'.autosave = s.autosave ∧
    s'.ready_to_review = (s.dataL_loaded && s.dataR_loaded && s.var_schema_loaded &&
      decide (0 < s.label_choices.length)) := by
  simp only [load_comp_pairs] at h
  split at h
  · exact (Except.noConfusion h)
  · split at h
    · exact (Except.noConfusion h)
    · split at h
      · exact (Except.noConfusion h)
      · next data_df path? heq =>
        repeat' split at h
        all_goals first
          | exact (Except.noConfusion h)
          | (simp only [Except.ok.injEq, Prod.mk.injEq] at h
             obtain ⟨h1, h2⟩ := h
             subst h1
             simp [check_ready_eta])

theorem set_var_comp_schema_ok {s : RLR} {g : List VarGroup} {s' : RLR}
    (h : set_var_comp_schema s g = .ok s') :
    s' = check_ready_to_review { s with var_schema := g, var_schema_loaded := true } := by
  simp only [set_var_comp_schema] at h
  repeat' split at h
  all_goals first
    | exact (Except.noConfusion h)
    | (simp only [Except.ok.injEq] at h; exact h.symm)

theorem set_label_choices_ok {s : RLR} {cs : List String} {s' : RLR}
    (h : set_label_choices s cs = .ok s') :
    cs ≠ [] ∧ s' = { s with label_choices := cs } := by
  simp only [set_label_choices] at h
  split at h
  · exact (Except.noConfusion h)
  · next hc =>
    simp only [Except.ok.injEq] at h
    exact ⟨by simpa using hc, h.symm⟩


theorem load_comp_pairs_ok_path {fs : FS} {s : RLR} {src : Src} {th : ℚ}
    {s' : RLR} {w : List Warn} (h : load_comp_pairs fs s src th = .ok (s', w)) :
    ∃ tb, resolveSrc fs src = .ok (tb, s'.comp_pairs_file_path) := by
  simp only [load_comp_pairs] at h
  split at h
  · exact (Except.noConfusion h)
  · split at h
    · exact (Except.noConfusion h)
    · split at h
      · exact (Except.noConfusion h)
      · next data_df path? heq =>
        repeat' split at h
        all_goals first
          | exact (Except.noConfusion h)
          | (simp only [Except.ok.injEq, Prod.mk.injEq] at h
             obtain ⟨h1, h2⟩ := h
             subst h1
             exact ⟨data_df, by simpa using heq⟩)

theorem load_review_packet_ok_struct {fs : FS} {s : RLR} {pkt : RevPacket}
    {s' : RLR} {w : List Warn} (h : load_review_packet fs s pkt = .ok (s', w)) :
    ∃ s1 s2 s3 s4 s5 : RLR,
      load_dataset fs s (.path pkt.file_L) pkt.file_L_ids "l" = .ok s1 ∧
      load_dataset fs s1 (.path pkt.file_R) pkt.file_R_ids "r" = .ok s2 ∧
      load_comp_pairs fs s2 (.path pkt.file_comps) COMP_EXIST_THRESH = .ok (s3, w) ∧
      set_var_comp_schema s3 pkt.var_group_schema = .ok s4 ∧
      set_label_choices s4 pkt.label_choices = .ok s5 ∧
      s' = check_ready_to_review
        (match pkt.curr_comp_pair_index with
         | some rev_ind =>
           if 0 ≤ rev_ind ∧ rev_ind ≤ (s5.comp_df.rows.length : Int) - 1 then
             { s5 with curr_comp_pair_index := rev_ind }
           else s5
         | none => s5) := by
  simp only [load_review_packet] at h
  split at h
  · exact (Except.noConfusion h)
  · next s1 heq1 =>
    split at h
    · exact (Except.noConfusion h)
    · next s2 heq2 =>
      split at h
      · exact (Except.noConfusion h)
      · next s3 w3 heq3 =>
        split at h
        · exact (Except.noConfusion h)
        · next s4 heq4 =>
          split at h
          · exact (Except.noConfusion h)
          · next s5 heq5 =>
            simp only [Except.ok.injEq, Prod.mk.injEq] at h
            obtain ⟨hstate, hw⟩ := h
            subst hw
            exact ⟨s1, s2, s3, s4, s5, heq1, heq2, heq3, heq4, heq5, hstate.symm⟩

/-- Claim C10: every successful comparison-set load resets the cursor
(`curr_comp_pair_index`) to 0 — including a re-load mid-review — and a
prior cursor position survives a comparison-set load only through the
review-packet import's optional in-range cursor restore. -/
theorem C10_cursor_reset :
    (∀ (fs : FS) (s : RLR) (src : Src) (th : ℚ) (s' : RLR) (w : List Warn),
        load_comp_pairs fs s src th = .ok (s', w) → s'.curr_comp_pair_index = 0) ∧
    (∀ (fs : FS) (s : RLR) (pkt : RevPacket) (s' : RLR) (w : List Warn),
        load_review_packet fs s pkt = .ok (s', w) →
        (pkt.curr_comp_pair_index = none → s'.curr_comp_pair_index = 0) ∧
        (∀ c : Int, pkt.curr_comp_pair_index = some c →
            (0 ≤ c ∧ c ≤ (s'.comp_df.rows.length : Int) - 1 →
              s'.curr_comp_pair_index = c) ∧
            (¬ (0 ≤ c ∧ c ≤ (s'.comp_df.rows.length : Int) - 1) →
              s'.curr_comp_pair_index = 0))) := by
  constructor
  · intro fs s src th s' w h
    exact (load_comp_pairs_ok_fields h).1
  · intro fs s pkt s' w h
    obtain ⟨s1, s2, s3, s4, s5, heq1, heq2, heq3, heq4, heq5, hstate⟩ :=
      load_review_packet_ok_struct h
    have hcurr5 : s5.curr_comp_pair_index = 0 := by
      rw [(set_label_choices_ok heq5).2]
      show s4.curr_comp_pair_index = 0
      rw [set_var_comp_schema_ok heq4, check_ready_eta]
      exact (load_comp_pairs_ok_fields heq3).1
    have hcomp : s'.comp_df = s5.comp_df := by
      rw [hstate, check_ready_eta]
      cases hpc : pkt.curr_comp_pair_index with
      | none => rfl
      | some c => simp only []; split <;> rfl
    constructor
    · intro hnone
      rw [hstate, hnone, check_ready_eta]
      exact hcurr5
    · intro c hc
      rw [hcomp]
      constructor
      · intro hrange
        rw [hstate, hc, check_ready_eta]
        simp only [if_pos hrange]
      · intro hrange
        rw [hstate, hc, check_ready_eta]
        simp only [if_neg hrange]
        exact hcurr5

/-- Witness for C10 at concrete inputs: the demo comparison-file load lands
the cursor at 0, and importing the demo packet (saved cursor 1, in range)
restores index 1. -/
theorem C10_cursor_reset_witness :
    demoLoadedPair.1.curr_comp_pair_index = 0 ∧
    demoImportPair.1.curr_comp_pair_index = 1 := by
  constructor
  · have h : load_comp_pairs demoFS demoPre (.path "C.csv") COMP_EXIST_THRESH =
        .ok (demoLoadedPair.1, demoLoadedPair.2) := by decide
    exact C10_cursor_reset.1 demoFS demoPre (.path "C.csv") COMP_EXIST_THRESH _ _ h
  · have h : load_review_packet demoFS initRLR demoPacket =
        .ok (demoImportPair.1, demoImportPair.2) := by decide
    exact ((C10_cursor_reset.2 demoFS initRLR demoPacket _ _ h).2 1 rfl).1 (by decide)

/-- Claim C7 (code_bug evidence): `prev_pair` as written in
`02_review.py` guards on `current_index < 0` instead of `> 0`, so at
index 1 (row count 2) it does not move, while the `02_Linkage_Review.py`
implementations clamp correctly: `advance` is a no-op at `row_count-1`,
`retreat` a no-op at 0, and both move by exactly one elsewhere. -/
theorem C7_prev_pair_bug :
    (prev_pair_02review { demoReady with curr_comp_pair_index := 1 }).curr_comp_pair_index = 1 ∧
    (prev_pair { demoReady with curr_comp_pair_index := 1 }).curr_comp_pair_index = 0 ∧
    (prev_pair demoReady).curr_comp_pair_index = 0 ∧
    (next_pair demoReady).curr_comp_pair_index = 1 ∧
    (next_pair { demoReady with curr_comp_pair_index := 1 }).curr_comp_pair_index = 1 ∧
    (next_pair (next_pair { demoReady with curr_comp_pair_index := 1 })).curr_comp_pair_index = 1 ∧
    (prev_pair (prev_pair demoReady)).curr_comp_pair_index = 0 := by
  decide

/-- Claim C9 (counterexample): calling `save_label_or_note` on a session
that is not ready does NOT fail hard — it returns successfully with the
state unchanged and only a warning, even with a wildly out-of-range
index. -/
theorem C9_counterexample :
    save_label_or_note initRLR "Match" "label" (some 99) none 0 =
      .ok (initRLR, none, [Warn.notReadyToSave]) := by
  decide

/-- Claim C9 (amended): `get_comp_pair` treats missing prerequisites and
an out-of-range index as hard assertion failures, and `save_label_or_note`
treats an out-of-range index as a hard assertion failure; but
`save_label_or_note` on a not-ready session is a silent no-op with a
non-fatal warning, not a hard failure. -/
theorem C9_amended :
    (∀ (s : RLR) (text kind : String) (idx : Int) (pp : Option String) (now : Nat),
        s.ready_to_review = false →
        save_label_or_note s text kind (some idx) pp now =
          .ok (s, none, [.notReadyToSave])) ∧
    (∀ (s : RLR) (text : String) (idx : Int) (pp : Option String) (now : Nat),
        s.ready_to_review = true →
        ¬ (0 ≤ idx ∧ idx ≤ (s.comp_df.rows.length : Int) - 1) →
        save_label_or_note s text "label" (some idx) pp now =
          .error (.assertionError "Comparison index is out of bounds")) ∧
    (∀ (s : RLR) (fmt : String) (ind : Option Int),
        (s.dataL_loaded = false ∨ s.dataR_loaded = false ∨ s.comps_loaded = false) →
        ∃ m, get_comp_pair s fmt ind = .error (.assertionError m)) ∧
    (∀ (s : RLR) (fmt : String) (idx : Int),
        s.dataL_loaded = true → s.dataR_loaded = true → s.comps_loaded = true →
        ¬ (0 ≤ idx ∧ idx ≤ (s.comp_df.rows.length : Int) - 1) →
        get_comp_pair s fmt (some idx) =
          .error (.assertionError "Comparison index is out of bounds")) := by
  refine ⟨?_, ?_, ?_, ?_⟩
  · intro s text kind idx pp now h
    simp [save_label_or_note, h]
  · intro s text idx pp now hready hrange
    have h1 : (decide (0 ≤ idx) && decide (idx ≤ (s.comp_df.rows.length : Int) - 1)) = false := by
      rcases Decidable.not_and_iff_or_not.mp hrange with h | h <;> simp [h]
    simp [save_label_or_note, hready, h1]
  · intro s fmt ind h
    by_cases hL : s.dataL_loaded
    · by_cases hR : s.dataR_loaded
      · have hC : s.comps_loaded = false := by
          rcases h with h | h | h
          · exact absurd h (by simp [hL])
          · exact absurd h (by simp [hR])
          · exact h
        exact ⟨"Load comparison data file before getting a comparison pair",
          by simp [get_comp_pair, hL, hR, hC]⟩
      · exact ⟨"Load data files before getting a comparison pair",
          by simp [get_comp_pair, Bool.eq_false_iff.mpr hR,
            show s.dataL_loaded = true from by simpa using hL]⟩
    · exact ⟨"Load data files before getting a comparison pair",
        by simp [get_comp_pair, Bool.eq_false_iff.mpr hL]⟩
  · intro s fmt idx hL hR hC hrange
    have h1 : (decide (0 ≤ idx) && decide (idx ≤ (s.comp_df.rows.length : Int) - 1)) = false := by
      rcases Decidable.not_and_iff_or_not.mp hrange with h | h <;> simp [h]
    simp [get_comp_pair, hL, hR, hC, h1]

/-- Witness for C9 (amended) at concrete inputs: a not-ready save is a
warned no-op; an out-of-range save on the ready demo session asserts;
`get_comp_pair` asserts on a fresh session and on an out-of-range index. -/
theorem C9_amended_witness :
    save_label_or_note initRLR "x" "note" (some 0) none 7 =
      .ok (initRLR, none, [.notReadyToSave]) ∧
    save_label_or_note demoReady "Match" "label" (some 99) none 7 =
      .error (.assertionError "Comparison index is out of bounds") ∧
    (∃ m, get_comp_pair initRLR "raw" none = .error (.assertionError m)) ∧
    get_comp_pair demoReady "raw" (some (-3)) =
      .error (.assertionError "Comparison index is out of bounds") := by
  refine ⟨C9_amended.1 initRLR "x" "note" 0 none 7 rfl,
          C9_amended.2.1 demoReady "Match" 99 none 7 rfl (by decide),
          C9_amended.2.2.1 initRLR "raw" none (Or.inl rfl),
          C9_amended.2.2.2 demoReady "raw" (-3) rfl rfl rfl (by decide)⟩

/-- Claim C5 (counterexample): a concrete session built through the real
operation chain is ready; re-loading the left dataset then leaves the
stored `ready_to_review` flag `true` although `comps_loaded` and
`var_schema_loaded` are now `false`, so the stored flag differs from the
claimed conjunction after a state-changing operation. -/
theorem C5_counterexample :
    ((load_dataset demoFS initRLR (.path "L.csv") ["ida"] "l").bind (fun s1 =>
     (load_dataset demoFS s1 (.path "R.csv") ["idb"] "r").bind (fun s2 =>
     (load_comp_pairs demoFS s2 (.path "C.csv") COMP_EXIST_THRESH).bind (fun p =>
     (set_var_comp_schema p.1 demoSchema).bind (fun s4 =>
      load_dataset demoFS s4 (.path "L.csv") ["ida"] "l"))))).map
      (fun s => (s.ready_to_review,
                 s.dataL_loaded && s.dataR_loaded && s.comps_loaded &&
                   s.var_schema_loaded && decide (0 < s.label_choices.length)))
      = .ok (true, false) := by
  decide

/-- Claim C5 (amended): `check_ready_to_review` stores exactly the claimed
conjunction, and `load_comp_pairs`, `set_var_comp_schema` and
`load_review_packet` recompute it; but `load_dataset` does not — it
preserves the stored flag while clearing `comps_loaded` and
`var_schema_loaded`, so the flag can be left stale after a dataset load. -/
theorem C5_amended :
    (∀ s : RLR, (check_ready_to_review s).ready_to_review =
        (s.dataL_loaded && s.dataR_loaded && s.comps_loaded && s.var_schema_loaded &&
          decide (0 < s.label_choices.length))) ∧
    (∀ (fs : FS) (s : RLR) (src : Src) (th : ℚ) (s' : RLR) (w : List Warn),
        load_comp_pairs fs s src th = .ok (s', w) →
        s'.ready_to_review = (s'.dataL_loaded && s'.dataR_loaded && s'.comps_loaded &&
          s'.var_schema_loaded && decide (0 < s'.label_choices.length))) ∧
    (∀ (s : RLR) (g : List VarGroup) (s' : RLR),
        set_var_comp_schema s g = .ok s' →
        s'.ready_to_review = (s'.dataL_loaded && s'.dataR_loaded && s'.comps_loaded &&
          s'.var_schema_loaded && decide (0 < s'.label_choices.length))) ∧
    (∀ (fs : FS) (s : RLR) (src : Src) (ids : List String) (side : String) (s' : RLR),
        load_dataset fs s src ids side = .ok s' →
        s'.ready_to_review = s.ready_to_review ∧ s'.comps_loaded = false ∧
        s'.var_schema_loaded = false) := by
  refine ⟨?_, ?_, ?_, ?_⟩
  · intro s
    exact check_ready_ready s
  · intro fs s src th s' w h
    obtain ⟨-, h2, h3, h4, h5, h6, -, -, -, -, -, -, -, -, h15⟩ :=
      load_comp_pairs_ok_fields h
    rw [h15, h2, h3, h4, h5, h6]
    try simp
  · intro s g s' h
    rw [set_var_comp_schema_ok h]
    try simp [check_ready_eta]
  · intro fs s src ids side s' h
    obtain ⟨h1, h2, h3, _⟩ := load_dataset_ok_inv h
    exact ⟨h1, h2, h3⟩

/-- Witness for C5 (amended) at concrete inputs: readiness recomputation
on the ready demo session, after the demo comparison-file load, after the
demo schema set, and flag preservation across a concrete dataset load. -/
theorem C5_amended_witness :
    (check_ready_to_review demoReady).ready_to_review =
      (demoReady.dataL_loaded && demoReady.dataR_loaded && demoReady.comps_loaded &&
        demoReady.var_schema_loaded && decide (0 < demoReady.label_choices.length)) ∧
    demoLoadedPair.1.ready_to_review =
      (demoLoadedPair.1.dataL_loaded && demoLoadedPair.1.dataR_loaded &&
        demoLoadedPair.1.comps_loaded && demoLoadedPair.1.var_schema_loaded &&
        decide (0 < demoLoadedPair.1.label_choices.length)) ∧
    demoS4.ready_to_review =
      (demoS4.dataL_loaded && demoS4.dataR_loaded && demoS4.comps_loaded &&
        demoS4.var_schema_loaded && decide (0 < demoS4.label_choices.length)) ∧
    (demoReload.ready_to_review = demoReady.ready_to_review ∧
     demoReload.comps_loaded = false ∧ demoReload.var_schema_loaded = false) := by
  refine ⟨C5_amended.1 demoReady, ?_, ?_, ?_⟩
  · exact C5_amended.2.1 demoFS demoPre (.path "C.csv") COMP_EXIST_THRESH
      demoLoadedPair.1 demoLoadedPair.2 (by decide)
  · exact C5_amended.2.2.1 demoS3Pair.1 demoSchema demoS4 (by decide)
  · exact C5_amended.2.2.2 demoFS demoReady (.path "L.csv") ["ida"] "l" demoReload (by decide)

/-- Claim C2: on a ready session, saving a non-empty label that is not
among `label_choices` at an in-range index fails with the invalid-label
assertion.  In this pure embedding the error result carries no successor
state, matching the source, where the assertion fires before any mutation
of the comparison table (rlr.py:704 precedes lines 706-715), so the row is
left unmodified. -/
theorem C2_invalid_label (s : RLR) (idx : Int) (text : String)
    (pp : Option String) (now : Nat)
    (hready : s.ready_to_review = true)
    (h0 : 0 ≤ idx) (hN : idx < (s.comp_df.rows.length : Int))
    (htext : ¬ text ∈ "" :: s.label_choices) :
    save_label_or_note s text "label" (some idx) pp now =
      .error (.assertionError "Label passed is not among valid choices") := by
  have h1 : (decide (0 ≤ idx) &&
      decide (idx ≤ (s.comp_df.rows.length : Int) - 1)) = true := by
    simp only [Bool.and_eq_true, decide_eq_true_eq]
    omega
  have h2 : ¬text = "" ∧ text ∉ s.label_choices := by
    simpa using htext
  simp [save_label_or_note, hready, h1, h2]

/-- Witness for C2: saving the label "Bogus" (not a choice) at index 0 of
the ready demo session raises the invalid-label assertion. -/
theorem C2_invalid_label_witness :
    save_label_or_note demoReady "Bogus" "label" (some 0) none 7 =
      .error (.assertionError "Label passed is not among valid choices") :=
  C2_invalid_label demoReady 0 "Bogus" none 7 rfl (by decide) (by decide) (by decide)

/-- Claim C1: on every ready session, saving a valid label text (empty or
among `label_choices`) at an in-range index sets that row's label to the
text, sets its indicator to 1 for non-empty text and 0 for empty, stamps
`rlr_modified` with the current time — strictly later than the row's
previous stamp, given that the wall clock `now` has strictly advanced past
it — and leaves every other row untouched; no file is written when
autosave is off, and when autosave is on (with a usable backing path, as
its enablement presupposes) the comparison table is immediately persisted
to the session's backing path. -/
theorem C1_save_label (s : RLR) (idx : Int) (text : String) (now : Nat)
    (hready : s.ready_to_review = true)
    (h0 : 0 ≤ idx) (hN : idx < (s.comp_df.rows.length : Int))
    (htext : text ∈ "" :: s.label_choices)
    (htime : laterThan (s.comp_df.getCell idx.toNat REV_DATE_COL) (Val.t now) = true)
    (hpersist : s.autosave = true →
      ∃ p, s.comp_pairs_file_path = some p ∧ extOk p = true) :
    ∃ s' w, save_label_or_note s text "label" (some idx) none now = .ok (s', w, []) ∧
      s'.comp_df.getCell idx.toNat REV_LABEL_COL = Val.s text ∧
      s'.comp_df.getCell idx.toNat REV_LABEL_IND_COL =
        Val.i (if text = "" then 0 else 1) ∧
      s'.comp_df.getCell idx.toNat REV_DATE_COL = Val.t now ∧
      laterThan (s.comp_df.getCell idx.toNat REV_DATE_COL)
        (s'.comp_df.getCell idx.toNat REV_DATE_COL) = true ∧
      (∀ j : Nat, j ≠ idx.toNat → ∀ c, s'.comp_df.getCell j c = s.comp_df.getCell j c) ∧
      s'.comp_df.rows.length = s.comp_df.rows.length ∧
      (s.autosave = false → w = none) ∧
      (∀ p, s.autosave = true → s.comp_pairs_file_path = some p →
        w = some (p, s'.comp_df)) := by
  have h1 : (decide (0 ≤ idx) &&
      decide (idx ≤ (s.comp_df.rows.length : Int) - 1)) = true := by
    simp only [Bool.and_eq_true, decide_eq_true_eq]
    omega
  have h2 : ¬(¬text = "" ∧ text ∉ s.label_choices) := by
    rcases List.mem_cons.mp htext with h | h
    · exact fun hc => hc.1 h
    · exact fun hc => hc.2 h
  have hlt : idx.toNat < s.comp_df.rows.length := by omega
  have hlt1 : idx.toNat <
      ((s.comp_df.setCell idx.toNat REV_LABEL_COL (Val.s text)).setCell idx.toNat
        REV_LABEL_IND_COL (Val.i (if text = "" then 0 else 1))).rows.length := by
    simpa [setCell_rows_length] using hlt
  have hlt0 : idx.toNat <
      (s.comp_df.setCell idx.toNat REV_LABEL_COL (Val.s text)).rows.length := by
    simpa [setCell_rows_length] using hlt
  cases hauto : s.autosave with
  | false =>
    refine ⟨{ s with comp_df := ((s.comp_df.setCell idx.toNat REV_LABEL_COL
        (Val.s text)).setCell idx.toNat REV_LABEL_IND_COL
        (Val.i (if text = "" then 0 else 1))).setCell idx.toNat REV_DATE_COL (Val.t now) },
        none, ?_, ?_, ?_, ?_, ?_, ?_, ?_, ?_, ?_⟩ <;> dsimp only
    · simp [save_label_or_note, hready, h1, h2, hauto]
    · rw [getCell_setCell_ne_col _ _ _ (by decide), getCell_setCell_ne_col _ _ _ (by decide),
        getCell_setCell_self _ _ _ _ hlt]
    · rw [getCell_setCell_ne_col _ _ _ (by decide), getCell_setCell_self _ _ _ _ hlt0]
    · rw [getCell_setCell_self _ _ _ _ hlt1]
    · rw [getCell_setCell_self _ _ _ _ hlt1]
      exact htime
    · intro j hj c
      rw [getCell_setCell_ne_row _ (Ne.symm hj), getCell_setCell_ne_row _ (Ne.symm hj),
        getCell_setCell_ne_row _ (Ne.symm hj)]
    · simp [setCell_rows_length]
    · intro _
      rfl
    · intro p hp _
      exact Bool.noConfusion hp
  | true =>
    obtain ⟨p, hpath, hext⟩ := hpersist hauto
    refine ⟨{ s with comp_df := ((s.comp_df.setCell idx.toNat REV_LABEL_COL
        (Val.s text)).setCell idx.toNat REV_LABEL_IND_COL
        (Val.i (if text = "" then 0 else 1))).setCell idx.toNat REV_DATE_COL (Val.t now) },
        some (p, ((s.comp_df.setCell idx.toNat REV_LABEL_COL
        (Val.s text)).setCell idx.toNat REV_LABEL_IND_COL
        (Val.i (if text = "" then 0 else 1))).setCell idx.toNat REV_DATE_COL (Val.t now)),
        ?_, ?_, ?_, ?_, ?_, ?_, ?_, ?_, ?_⟩ <;> dsimp only
    · simp [save_label_or_note, hready, h1, h2, hauto, save_comp_df, hpath, hext]
    · rw [getCell_setCell_ne_col _ _ _ (by decide), getCell_setCell_ne_col _ _ _ (by decide),
        getCell_setCell_self _ _ _ _ hlt]
    · rw [getCell_setCell_ne_col _ _ _ (by decide), getCell_setCell_self _ _ _ _ hlt0]
    · rw [getCell_setCell_self _ _ _ _ hlt1]
    · rw [getCell_setCell_self _ _ _ _ hlt1]
      exact htime
    · intro j hj c
      rw [getCell_setCell_ne_row _ (Ne.symm hj), getCell_setCell_ne_row _ (Ne.symm hj),
        getCell_setCell_ne_row _ (Ne.symm hj)]
    · simp [setCell_rows_length]
    · intro hp
      exact Bool.noConfusion hp
    · intro p1 _ hp1
      rw [hpath] at hp1
      injection hp1 with hpp
      rw [hpp]

/-- Witness for C1 at concrete inputs, exercising both autosave
configurations: on the ready demo session with the default autosave off,
saving "Match" at index 0 with clock value 5 sets the row's label,
indicator 1 and timestamp 5, leaves row 1 alone and writes no file; with
autosave switched on, the same save persists to "C.csv". -/
theorem C1_save_label_witness :
    (demoReady.ready_to_review = true ∧ demoReady.autosave = false ∧
      ∃ s' w, save_label_or_note demoReady "Match" "label" (some 0) none 5 =
          .ok (s', w, []) ∧
        s'.comp_df.getCell (Int.toNat 0) REV_LABEL_COL = Val.s "Match" ∧
        s'.comp_df.getCell (Int.toNat 0) REV_LABEL_IND_COL =
          Val.i (if "Match" = "" then 0 else 1) ∧
        s'.comp_df.getCell (Int.toNat 0) REV_DATE_COL = Val.t 5 ∧
        laterThan (demoReady.comp_df.getCell (Int.toNat 0) REV_DATE_COL)
          (s'.comp_df.getCell (Int.toNat 0) REV_DATE_COL) = true ∧
        (∀ j : Nat, j ≠ Int.toNat 0 → ∀ c, s'.comp_df.getCell j c =
          demoReady.comp_df.getCell j c) ∧
        s'.comp_df.rows.length = demoReady.comp_df.rows.length ∧
        (demoReady.autosave = false → w = none) ∧
        (∀ p, demoReady.autosave = true → demoReady.comp_pairs_file_path = some p →
          w = some (p, s'.comp_df))) ∧
    ({ demoReady with autosave := true }.autosave = true ∧
      { demoReady with autosave := true }.comp_pairs_file_path = some "C.csv" ∧
      ∃ s' w, save_label_or_note { demoReady with autosave := true } "Match" "label"
          (some 0) none 5 = .ok (s', w, []) ∧
        s'.comp_df.getCell (Int.toNat 0) REV_LABEL_COL = Val.s "Match" ∧
        s'.comp_df.getCell (Int.toNat 0) REV_LABEL_IND_COL =
          Val.i (if "Match" = "" then 0 else 1) ∧
        s'.comp_df.getCell (Int.toNat 0) REV_DATE_COL = Val.t 5 ∧
        laterThan ({ demoReady with autosave := true }.comp_df.getCell (Int.toNat 0)
          REV_DATE_COL) (s'.comp_df.getCell (Int.toNat 0) REV_DATE_COL) = true ∧
        (∀ j : Nat, j ≠ Int.toNat 0 → ∀ c, s'.comp_df.getCell j c =
          { demoReady with autosave := true }.comp_df.getCell j c) ∧
        s'.comp_df.rows.length = { demoReady with autosave := true }.comp_df.rows.length ∧
        ({ demoReady with autosave := true }.autosave = false → w = none) ∧
        (∀ p, { demoReady with autosave := true }.autosave = true →
          { demoReady with autosave := true }.comp_pairs_file_path = some p →
          w = some (p, s'.comp_df))) :=
  ⟨⟨rfl, rfl,
    C1_save_label demoReady 0 "Match" 5 rfl (by decide) (by decide) (by decide)
      (by decide) (fun h => absurd h (by decide))⟩,
   ⟨rfl, rfl,
    C1_save_label { demoReady with autosave := true } 0 "Match" 5 rfl (by decide)
      (by decide) (by decide) (by decide)
      (fun _ => ⟨"C.csv", rfl, by decide⟩)⟩⟩

theorem scanNext_spec (t : Table) (nlast curr : Nat) (h : curr ≤ nlast) :
    curr ≤ scanNext t nlast curr ∧ scanNext t nlast curr ≤ nlast ∧
    (t.getCell (scanNext t nlast curr) REV_LABEL_COL = Val.s "" ∨
      scanNext t nlast curr = nlast) ∧
    (∀ k, curr ≤ k → k < scanNext t nlast curr →
      t.getCell k REV_LABEL_COL ≠ Val.s "") := by
  generalize hfuel : nlast - curr = fuel
  induction fuel generalizing curr with
  | zero =>
    have hc : curr = nlast := by omega
    rw [scanNext]
    rw [if_neg (by omega)]
    exact ⟨le_refl _, by omega, Or.inr hc, fun k hk1 hk2 => absurd (lt_of_le_of_lt hk1 hk2)
      (lt_irrefl _)⟩
  | succ n ih =>
    rw [scanNext]
    split
    · next hcond =>
      obtain ⟨hlt, hne⟩ := hcond
      obtain ⟨ih1, ih2, ih3, ih4⟩ := ih (curr + 1) (by omega) (by omega)
      refine ⟨by omega, ih2, ih3, ?_⟩
      intro k hk1 hk2
      rcases Nat.eq_or_lt_of_le hk1 with hk | hk
      · subst hk
        exact hne
      · exact ih4 k hk hk2
    · next hcond =>
      refine ⟨le_refl _, h, ?_, fun k hk1 hk2 => absurd (lt_of_le_of_lt hk1 hk2)
        (lt_irrefl _)⟩
      rcases Decidable.not_and_iff_or_not.mp hcond with hc | hc
      · exact Or.inr (by omega)
      · exact Or.inl (by simpa using hc)

/-- Claim C6: `next_unlabeled_pair` never raises (it is a total function
in this embedding), leaves the comparison table unchanged, is a no-op when
the cursor is already at `row_count - 1`, and otherwise moves the cursor
to the nearest strictly-later row whose label is the empty string — or to
`row_count - 1` when no strictly-later row is unlabeled. -/
theorem C6_advance_to_unlabeled (s : RLR) (i : Nat)
    (hcur : s.curr_comp_pair_index = (i : Int))
    (hi : i < s.comp_df.rows.length) :
    (next_unlabeled_pair s).comp_df = s.comp_df ∧
    (i = s.comp_df.rows.length - 1 → next_unlabeled_pair s = s) ∧
    (i < s.comp_df.rows.length - 1 →
      ∃ j : Nat, (next_unlabeled_pair s).curr_comp_pair_index = (j : Int) ∧
        i < j ∧ j ≤ s.comp_df.rows.length - 1 ∧
        (s.comp_df.getCell j REV_LABEL_COL = Val.s "" ∨
          j = s.comp_df.rows.length - 1) ∧
        (∀ k, i < k → k < j → s.comp_df.getCell k REV_LABEL_COL ≠ Val.s "")) := by
  by_cases hend : i = s.comp_df.rows.length - 1
  · have hbeq : (s.curr_comp_pair_index == (s.comp_df.rows.length : Int) - 1) = true := by
      rw [beq_iff_eq, hcur]
      omega
    have hnop : next_unlabeled_pair s = s := by
      rw [next_unlabeled_pair]
      simp only [hbeq, if_true]
    exact ⟨by rw [hnop], fun _ => hnop, fun hlt => absurd hend (by omega)⟩
  · have hbeq : (s.curr_comp_pair_index == (s.comp_df.rows.length : Int) - 1) = false := by
      rw [beq_eq_false_iff_ne, hcur]
      omega
    have hstart : (s.curr_comp_pair_index + 1).toNat = i + 1 := by
      rw [hcur]
      omega
    have hrun : next_unlabeled_pair s =
        { s with curr_comp_pair_index :=
            (scanNext s.comp_df (s.comp_df.rows.length - 1) (i + 1) : Int) } := by
      rw [next_unlabeled_pair]
      simp only [hbeq, Bool.false_eq_true, if_false, hstart]
    obtain ⟨h1, h2, h3, h4⟩ := scanNext_spec s.comp_df (s.comp_df.rows.length - 1)
      (i + 1) (by omega)
    refine ⟨by rw [hrun], fun he => absurd he hend, fun _ => ?_⟩
    refine ⟨scanNext s.comp_df (s.comp_df.rows.length - 1) (i + 1), by rw [hrun], by omega,
      h2, h3, ?_⟩
    intro k hk1 hk2
    exact h4 k (by omega) hk2

/-- Witness for C6 on the demo navigation session (labels "Match",
"Match", "", "x", cursor 0): the scan lands on index 2, the nearest
strictly-later unlabeled row. -/
theorem C6_advance_to_unlabeled_witness :
    (next_unlabeled_pair demoC6).comp_df = demoC6.comp_df ∧
    ((0:Nat) = demoC6.comp_df.rows.length - 1 → next_unlabeled_pair demoC6 = demoC6) ∧
    ((0:Nat) < demoC6.comp_df.rows.length - 1 →
      ∃ j : Nat, (next_unlabeled_pair demoC6).curr_comp_pair_index = (j : Int) ∧
        0 < j ∧ j ≤ demoC6.comp_df.rows.length - 1 ∧
        (demoC6.comp_df.getCell j REV_LABEL_COL = Val.s "" ∨
          j = demoC6.comp_df.rows.length - 1) ∧
        (∀ k, 0 < k → k < j → demoC6.comp_df.getCell k REV_LABEL_COL ≠ Val.s "")) :=
  C6_advance_to_unlabeled demoC6 0 (by decide) (by decide)

theorem addDefaultCols_rows_length (t : Table) :
    (addDefaultCols t).rows.length = t.rows.length := by
  simp only [addDefaultCols, Table.addColIfAbsent]
  repeat' split
  all_goals simp

theorem getD_map_lt {α β : Type} (f : α → β) (l : List α) (i : Nat) (d : β) (d' : α)
    (h : i < l.length) : (l.map f).getD i d = f (l.getD i d') := by
  induction l generalizing i with
  | nil => simp at h
  | cons hd tl ih =>
    cases i with
    | zero => rfl
    | succ j => exact ih j (by simpa using h)

theorem getD_mem_of_lt {α : Type} (l : List α) (i : Nat) (d : α) (h : i < l.length) :
    l.getD i d ∈ l := by
  induction l generalizing i with
  | nil => simp at h
  | cons hd tl ih =>
    cases i with
    | zero => exact List.mem_cons_self _ _
    | succ j => exact List.mem_cons_of_mem _ (ih j (by simpa using h))

/-- Claim C3 (counterexample): with a positive threshold, loading a
one-row comparison table whose ids are both found (M = 0 missing rows)
but which already carries `rlr_label_ind = -1` succeeds with no warning,
yet leaves one row flagged -1 — so "-1 holds for exactly the M missing
rows" fails as stated. -/
theorem C3_counterexample :
    (load_comp_pairs [] demoPre (.df demoCompPreMarked) COMP_EXIST_THRESH).map
      (fun r => (r.1.comp_df.rows.countP
          (fun row => rowGet row REV_LABEL_IND_COL == Val.i (-1)),
        (addDefaultCols demoCompPreMarked).rows.countP (fun row => probeRow demoPre row),
        r.2))
      = .ok (1, 0, []) := by decide

/-- Claim C3 (amended): with both datasets loaded and a positive
threshold, loading a non-empty comparison table in which no found row
already carries `rlr_label_ind = -1` (in particular, whenever the input
lacks the indicator column) succeeds with all N rows present, flags -1 on
exactly the rows whose id pair is missing from the datasets, and emits the
low-found-percentage warning if and only if the found fraction (N-M)/N is
below the threshold. -/
theorem C3_amended (fs : FS) (s : RLR) (src : Src) (t : Table) (pth : Option String)
    (θ : ℚ)
    (hL : s.dataL_loaded = true) (hR : s.dataR_loaded = true)
    (hsrc : resolveSrc fs src = .ok (t, pth))
    (hids_l : subsetCols s.id_vars_l t.cols = true)
    (hids_r : subsetCols s.id_vars_r t.cols = true)
    (hn : t.rows.length ≠ 0)
    (hθ : 0 < θ)
    (hpre : ∀ r ∈ (addDefaultCols t).rows, probeRow s r = false →
      rowGet r REV_LABEL_IND_COL ≠ Val.i (-1)) :
    ∃ s' w, load_comp_pairs fs s src θ = .ok (s', w) ∧
      s'.comp_df.rows.length = t.rows.length ∧
      (∀ i, i < t.rows.length →
        (s'.comp_df.getCell i REV_LABEL_IND_COL = Val.i (-1) ↔
          probeRow s ((addDefaultCols t).rows.getD i []) = true)) ∧
      (Warn.lowFoundPerc ∈ w ↔
        mkRat ((t.rows.length : Int) -
          ((addDefaultCols t).rows.countP (fun r => probeRow s r) : Int))
          t.rows.length < θ) := by
  have hlen : (addDefaultCols t).rows.length = t.rows.length :=
    addDefaultCols_rows_length t
  simp only [load_comp_pairs, hL, hR, hsrc, hids_l, hids_r, Bool.not_true,
    Bool.false_eq_true, if_false, if_pos hθ, hlen, if_neg hn, check_ready_eta]
  refine ⟨_, _, rfl, ?_, ?_, ?_⟩
  · simp [hlen]
  · intro i hi
    have hi' : i < (addDefaultCols t).rows.length := by omega
    show rowGet (((addDefaultCols t).rows.map (fun r =>
        if probeRow s r then rowSet r REV_LABEL_IND_COL (Val.i (-1)) else r)).getD i [])
        REV_LABEL_IND_COL = Val.i (-1) ↔ _
    rw [getD_map_lt _ _ i [] [] hi']
    by_cases hp : probeRow s ((addDefaultCols t).rows.getD i []) = true
    · simp only [hp, if_true, rowGet_rowSet_self]
    · have hp' : probeRow s ((addDefaultCols t).rows.getD i []) = false := by
        simpa using hp
      simp only [hp', Bool.false_eq_true, if_false]
      constructor
      · intro hc
        exact absurd hc (hpre _ (getD_mem_of_lt _ i [] hi') hp')
      · intro hc
        exact absurd hc (by simp)
  · constructor
    · intro hmem
      rcases List.mem_append.mp hmem with hm | hm
      · exfalso
        by_cases hu : t.idsUnique (s.id_vars_l ++ s.id_vars_r)
        · simp [hu] at hm
        · simp [Bool.eq_false_iff.mpr hu] at hm
      · by_cases hcond : mkRat ((t.rows.length : Int) -
            ((addDefaultCols t).rows.countP (fun r => probeRow s r) : Int))
            t.rows.length < θ
        · exact hcond
        · simp [if_neg hcond] at hm
    · intro hcond
      refine List.mem_append.mpr (Or.inr ?_)
      simp [if_pos hcond]

/-- Witness for C3 (amended) on concrete data: the two-row demo input with
one missing right id (M = 1 of N = 2) loads with both rows, flags exactly
the missing row, and warns because 1/2 < 4/5. -/
theorem C3_amended_witness :
    ∃ s' w, load_comp_pairs [] demoPre (.df demoCompMissIn) COMP_EXIST_THRESH =
        .ok (s', w) ∧
      s'.comp_df.rows.length = demoCompMissIn.rows.length ∧
      (∀ i, i < demoCompMissIn.rows.length →
        (s'.comp_df.getCell i REV_LABEL_IND_COL = Val.i (-1) ↔
          probeRow demoPre ((addDefaultCols demoCompMissIn).rows.getD i []) = true)) ∧
      (Warn.lowFoundPerc ∈ w ↔
        mkRat ((demoCompMissIn.rows.length : Int) -
          ((addDefaultCols demoCompMissIn).rows.countP
            (fun r => probeRow demoPre r) : Int))
          demoCompMissIn.rows.length < COMP_EXIST_THRESH) :=
  C3_amended [] demoPre (.df demoCompMissIn) demoCompMissIn none COMP_EXIST_THRESH
    rfl rfl rfl (by decide) (by decide) (by decide) (by decide) (by decide)

theorem resolveSrc_path_snd {fs : FS} {p : String} {tb : Table} {pth : Option String}
    (h : resolveSrc fs (.path p) = .ok (tb, pth)) :
    pth = some p ∧ readTable fs p = .ok tb := by
  simp only [resolveSrc] at h
  split at h
  · next t heq =>
    simp only [Except.ok.injEq, Prod.mk.injEq] at h
    exact ⟨h.2.symm, by rw [heq, h.1]⟩
  · exact (Except.noConfusion h)

/-- Claim C4: for a session built by loading both datasets and the
comparison set from file paths (then schema and label choices), exporting
a Review Packet and importing it into a fresh session over the same file
system reconstructs identical dataset contents, field-group schema, label
choices, and cursor position: the packet always includes the cursor, and
an in-range saved cursor is restored on import. -/
theorem C4_roundtrip (fs : FS) (pL pR pC : String) (idsL idsR : List String)
    (schema : List VarGroup) (choices : List String) (c : Int)
    (s1 s2 s3 s4 s5 : RLR) (w3 : List Warn)
    (h1 : load_dataset fs initRLR (.path pL) idsL "l" = .ok s1)
    (h2 : load_dataset fs s1 (.path pR) idsR "r" = .ok s2)
    (h3 : load_comp_pairs fs s2 (.path pC) COMP_EXIST_THRESH = .ok (s3, w3))
    (h4 : set_var_comp_schema s3 schema = .ok s4)
    (h5 : set_label_choices s4 choices = .ok s5)
    (hc : 0 ≤ c ∧ c ≤ (s5.comp_df.rows.length : Int) - 1) :
    ∃ pkt s' w',
      get_review_packet { s5 with curr_comp_pair_index := c } = (some pkt, []) ∧
      load_review_packet fs initRLR pkt = .ok (s', w') ∧
      s'.dataL = s5.dataL ∧ s'.dataR = s5.dataR ∧
      s'.var_schema = s5.var_schema ∧ s'.label_choices = s5.label_choices ∧
      s'.curr_comp_pair_index = c := by
  obtain ⟨tbL, hresL, hs1⟩ := load_dataset_l_ok h1
  obtain ⟨hpthL, hreadL⟩ := resolveSrc_path_snd hresL
  obtain ⟨tbR, hresR, hs2⟩ := load_dataset_r_ok h2
  obtain ⟨hpthR, hreadR⟩ := resolveSrc_path_snd hresR
  obtain ⟨f1, f2, f3, f4, f5, f6, f7, f8, f9, f10, f11, f12, f13, f14, f15⟩ :=
    load_comp_pairs_ok_fields h3
  obtain ⟨tbC, hresC⟩ := load_comp_pairs_ok_path h3
  obtain ⟨hpthC, hreadC⟩ := resolveSrc_path_snd hresC
  have hs4 := set_var_comp_schema_ok h4
  obtain ⟨hne, hs5⟩ := set_label_choices_ok h5
  have hL5 : s5.dataL_file_path = some pL := by
    rw [hs5]
    show s4.dataL_file_path = _
    rw [hs4, check_ready_eta]
    show s3.dataL_file_path = _
    rw [f11, hs2]
    show s1.dataL_file_path = _
    exact hpthL
  have hR5 : s5.dataR_file_path = some pR := by
    rw [hs5]
    show s4.dataR_file_path = _
    rw [hs4, check_ready_eta]
    show s3.dataR_file_path = _
    rw [f12, hs2]
    exact hpthR
  have hC5 : s5.comp_pairs_file_path = some pC := by
    rw [hs5]
    show s4.comp_pairs_file_path = _
    rw [hs4, check_ready_eta]
    show s3.comp_pairs_file_path = _
    exact hpthC
  have hIdsL5 : s5.id_vars_l = idsL := by
    rw [hs5]
    show s4.id_vars_l = _
    rw [hs4, check_ready_eta]
    show s3.id_vars_l = _
    rw [f7, hs2]
    show s1.id_vars_l = _
    rw [hs1]
  have hIdsR5 : s5.id_vars_r = idsR := by
    rw [hs5]
    show s4.id_vars_r = _
    rw [hs4, check_ready_eta]
    show s3.id_vars_r = _
    rw [f8, hs2]
  have hSch5 : s5.var_schema = schema := by
    rw [hs5]
    show s4.var_schema = _
    rw [hs4, check_ready_eta]
  have hCh5 : s5.label_choices = choices := by
    rw [hs5]
  have hdl3 : s3.dataL_loaded = true := by
    rw [f3, hs2]
    show s1.dataL_loaded = _
    rw [hs1]
  have hdr3 : s3.dataR_loaded = true := by
    rw [f4, hs2]
  have hlc3 : s3.label_choices = DEFAULT_LABELS := by
    rw [f6, hs2]
    show s1.label_choices = _
    rw [hs1]
    rfl
  have hReady5 : s5.ready_to_review = true := by
    rw [hs5]
    show s4.ready_to_review = _
    rw [hs4, check_ready_ready]
    simp [hdl3, hdr3, f2, hlc3, DEFAULT_LABELS]
  have hpkt : get_review_packet { s5 with curr_comp_pair_index := c } =
      (some ⟨pL, idsL, pR, idsR, pC, schema, choices, some c⟩, []) := by
    simp only [get_review_packet]
    rw [hReady5, hL5, hR5, hC5]
    simp [hIdsL5, hIdsR5, hSch5, hCh5]
  have himp : load_review_packet fs initRLR
      ⟨pL, idsL, pR, idsR, pC, schema, choices, some c⟩ =
      .ok (check_ready_to_review { s5 with curr_comp_pair_index := c }, w3) := by
    simp only [load_review_packet]
    simp only [h1, h2, h3, h4, h5]
    rw [if_pos hc]
  refine ⟨⟨pL, idsL, pR, idsR, pC, schema, choices, some c⟩,
    check_ready_to_review { s5 with curr_comp_pair_index := c }, w3, hpkt, himp,
    ?_, ?_, ?_, ?_, ?_⟩
  · rw [check_ready_eta]
  · rw [check_ready_eta]
  · rw [check_ready_eta]
  · rw [check_ready_eta]
  · rw [check_ready_eta]

/-- Witness for C4 on the concrete demo chain: exporting the session built
from L.csv / R.csv / C.csv (cursor moved to 1) and importing the packet
into a fresh session reproduces the datasets, schema, label choices and
cursor. -/
theorem C4_roundtrip_witness :
    ∃ pkt s' w',
      get_review_packet { demoS5 with curr_comp_pair_index := 1 } = (some pkt, []) ∧
      load_review_packet demoFS initRLR pkt = .ok (s', w') ∧
      s'.dataL = demoS5.dataL ∧ s'.dataR = demoS5.dataR ∧
      s'.var_schema = demoS5.var_schema ∧ s'.label_choices = demoS5.label_choices ∧
      s'.curr_comp_pair_index = 1 :=
  C4_roundtrip demoFS "L.csv" "R.csv" "C.csv" ["ida"] ["idb"] demoSchema DEFAULT_LABELS 1
    demoS1 demoS2 demoS3Pair.1 demoS4 demoS5 demoS3Pair.2
    (by decide) (by decide) (by decide) (by decide) (by decide) (by decide)

theorem dictInsert_cons_self (k : Val) (v₀ v : Nat) (tl : List (Val × Nat)) :
    dictInsert ((k, v₀) :: tl) k v = (k, v) :: tl := by
  simp [dictInsert]

theorem dictInsert_cons_ne (k₀ k : Val) (v₀ v : Nat) (tl : List (Val × Nat))
    (h : ¬ k₀ = k) : dictInsert ((k₀, v₀) :: tl) k v = (k₀, v₀) :: dictInsert tl k v := by
  simp [dictInsert, h]

theorem dictGet?_cons_self (k : Val) (v : Nat) (tl : List (Val × Nat)) :
    dictGet? ((k, v) :: tl) k = some v := by
  simp [dictGet?]

theorem dictGet?_cons_ne (k₀ k : Val) (v₀ : Nat) (tl : List (Val × Nat))
    (h : ¬ k₀ = k) : dictGet? ((k₀, v₀) :: tl) k = dictGet? tl k := by
  simp [dictGet?, h]

theorem mem_keys_insert (d : List (Val × Nat)) (k : Val) (v : Nat) (k' : Val) :
    k' ∈ (dictInsert d k v).map Prod.fst ↔ k' = k ∨ k' ∈ d.map Prod.fst := by
  induction d with
  | nil => simp [dictInsert]
  | cons hd tl ih =>
    obtain ⟨k₀, v₀⟩ := hd
    by_cases h₀ : k₀ = k
    · subst h₀
      rw [dictInsert_cons_self]
      simp only [List.map_cons, List.mem_cons]
      tauto
    · rw [dictInsert_cons_ne _ _ _ _ _ h₀]
      simp only [List.map_cons, List.mem_cons, ih]
      tauto

theorem nodup_keys_insert (d : List (Val × Nat)) (k : Val) (v : Nat)
    (h : (d.map Prod.fst).Nodup) : ((dictInsert d k v).map Prod.fst).Nodup := by
  induction d with
  | nil => simp [dictInsert]
  | cons hd tl ih =>
    obtain ⟨k₀, v₀⟩ := hd
    simp only [List.map_cons, List.nodup_cons] at h
    obtain ⟨hnotin, hnd⟩ := h
    by_cases h₀ : k₀ = k
    · subst h₀
      rw [dictInsert_cons_self]
      simp only [List.map_cons, List.nodup_cons]
      exact ⟨hnotin, hnd⟩
    · rw [dictInsert_cons_ne _ _ _ _ _ h₀]
      simp only [List.map_cons, List.nodup_cons]
      refine ⟨?_, ih hnd⟩
      intro hc
      rcases (mem_keys_insert tl k v k₀).mp hc with h | h
      · exact h₀ h
      · exact hnotin h

theorem values_insert (f : Val → Nat) (d : List (Val × Nat)) (k : Val)
    (hv : ∀ p ∈ d, p.2 = f p.1) : ∀ p ∈ dictInsert d k (f k), p.2 = f p.1 := by
  induction d with
  | nil =>
    intro p hp
    rcases List.mem_cons.mp hp with h | h
    · subst h
      rfl
    · simp at h
  | cons hd tl ih =>
    obtain ⟨k₀, v₀⟩ := hd
    intro p hp
    by_cases h₀ : k₀ = k
    · subst h₀
      rw [dictInsert_cons_self] at hp
      rcases List.mem_cons.mp hp with h | h
      · subst h
        rfl
      · exact hv p (List.mem_cons_of_mem _ h)
    · rw [dictInsert_cons_ne _ _ _ _ _ h₀] at hp
      rcases List.mem_cons.mp hp with h | h
      · subst h
        exact hv _ (List.mem_cons_self _ _)
      · exact ih (fun q hq => hv q (List.mem_cons_of_mem _ hq)) p h

theorem dictSum_eq_sum_keys (f : Val → Nat) (d : List (Val × Nat))
    (h : ∀ p ∈ d, p.2 = f p.1) :
    dictSum d = ((d.map Prod.fst).map f).sum := by
  induction d with
  | nil => rfl
  | cons hd tl ih =>
    simp only [dictSum, List.map_cons, List.sum_cons] at *
    rw [h hd (List.mem_cons_self _ _), ih (fun q hq => h q (List.mem_cons_of_mem _ hq))]

theorem dictGet?_eq_of_values (f : Val → Nat) (d : List (Val × Nat))
    (h : ∀ p ∈ d, p.2 = f p.1) (k : Val) (hk : k ∈ d.map Prod.fst) :
    dictGet? d k = some (f k) := by
  induction d with
  | nil => simp at hk
  | cons hd tl ih =>
    obtain ⟨k₀, v₀⟩ := hd
    by_cases h₀ : k₀ = k
    · subst h₀
      rw [show v₀ = f k₀ from h ⟨k₀, v₀⟩ (List.mem_cons_self _ _)]
      exact dictGet?_cons_self k₀ (f k₀) tl
    · rw [dictGet?_cons_ne _ _ _ _ h₀]
      refine ih (fun q hq => h q (List.mem_cons_of_mem _ hq)) ?_
      simp only [List.map_cons, List.mem_cons] at hk
      rcases hk with h' | h'
      · exact absurd h'.symm h₀
      · exact h'

theorem wf_foldIns (f : Val → Nat) (ps : List (Val × Nat)) :
    ∀ d, (∀ kv ∈ ps, kv.2 = f kv.1) → dictWF f d → dictWF f (foldIns d ps) := by
  induction ps with
  | nil =>
    intro d _ h
    exact h
  | cons kv rest ih =>
    intro d hp h
    have hkv : kv.2 = f kv.1 := hp kv (List.mem_cons_self _ _)
    have hstep : dictWF f (dictInsert d kv.1 kv.2) := by
      rw [hkv]
      exact ⟨values_insert f d kv.1 h.1, nodup_keys_insert d kv.1 _ h.2⟩
    exact ih _ (fun q hq => hp q (List.mem_cons_of_mem _ hq)) hstep

theorem mem_keys_foldIns (ps : List (Val × Nat)) :
    ∀ (d : List (Val × Nat)) (k : Val),
      k ∈ (foldIns d ps).map Prod.fst ↔
        k ∈ d.map Prod.fst ∨ k ∈ ps.map Prod.fst := by
  induction ps with
  | nil =>
    intro d k
    simp [foldIns]
  | cons kv rest ih =>
    intro d k
    have hstep : foldIns d (kv :: rest) = foldIns (dictInsert d kv.1 kv.2) rest := rfl
    rw [hstep, ih, mem_keys_insert]
    simp only [List.map_cons, List.mem_cons]
    tauto

theorem sum_map_filter_ne_zero (g : Val → Nat) (K : List Val) :
    ((K.filter (fun v => g v != 0)).map g).sum = (K.map g).sum := by
  induction K with
  | nil => rfl
  | cons hd tl ih =>
    by_cases h : g hd = 0
    · simp [List.filter_cons, h, ih]
    · simp [List.filter_cons, h, ih]

theorem countP_three_split (choiceKeys : List Val) (l : List Val) :
    l.countP (fun v => v == Val.s "") +
    l.countP (fun v => choiceKeys.contains v && !(v == Val.s "")) +
    l.countP (fun v => !(choiceKeys.contains v) && !(v == Val.s "")) = l.length := by
  induction l with
  | nil => rfl
  | cons hd tl ih =>
    simp only [List.countP_cons, List.length_cons]
    by_cases h1 : (hd == Val.s "") = true
    · rw [if_pos h1, if_neg (by simp [h1]), if_neg (by simp [h1])]
      omega
    · have h1' : (hd == Val.s "") = false := by simpa using h1
      by_cases h2 : (choiceKeys.contains hd) = true
      · have h2m : hd ∈ choiceKeys := by simpa using h2
        rw [if_neg (by simp [h1']), if_pos (by simp [h1', h2m]), if_neg (by simp [h2m])]
        omega
      · have h2m : hd ∉ choiceKeys := by simpa using h2
        rw [if_neg (by simp [h1']), if_neg (by simp [h2m]), if_pos (by simp [h1', h2m])]
        omega


theorem label_counts_core (labels : List Val) (choices : List String)
    (d2 : List (Val × Nat))
    (hd2 : d2 = foldIns (foldIns
        [(Val.s "Unlabeled", labels.countP (fun v => v == Val.s ""))]
        (choices.map (fun c => (Val.s c, labels.countP (fun v => v == Val.s c)))))
        ((labels.dedup.filter (fun v => !((choices.map Val.s).contains v) &&
          !(v == Val.s ""))).map (fun v => (v, labels.countP (fun w => w == v)))))
    (hU : "Unlabeled" ∉ choices) (hE : "" ∉ choices)
    (hLab : Val.s "Unlabeled" ∉ labels) :
    dictGet? d2 (Val.s "Unlabeled") = some (labels.countP (fun v => v == Val.s "")) ∧
    (∀ c ∈ choices, dictGet? d2 (Val.s c) =
      some (labels.countP (fun v => v == Val.s c))) ∧
    (∀ v ∈ labels, v ∉ choices.map Val.s → v ≠ Val.s "" →
      dictGet? d2 v = some (labels.countP (fun w => w == v))) ∧
    dictSum d2 = labels.length := by
  have hf : ∀ k : Val, (fun k : Val => if k = Val.s "Unlabeled"
      then labels.countP (fun w => w == Val.s "")
      else labels.countP (fun w => w == k)) k =
      if k = Val.s "Unlabeled" then labels.countP (fun w => w == Val.s "")
      else labels.countP (fun w => w == k) := fun _ => rfl
  set f : Val → Nat := fun k => if k = Val.s "Unlabeled"
      then labels.countP (fun w => w == Val.s "")
      else labels.countP (fun w => w == k) with hfdef
  have hval0 : ∀ p ∈ [(Val.s "Unlabeled", labels.countP (fun v => v == Val.s ""))],
      p.2 = f p.1 := by
    intro p hp
    simp only [List.mem_singleton] at hp
    subst hp
    simp [hfdef]
  have hwf0 : dictWF f [(Val.s "Unlabeled", labels.countP (fun v => v == Val.s ""))] :=
    ⟨hval0, by simp⟩
  have hvalcps : ∀ kv ∈ choices.map (fun c =>
      (Val.s c, labels.countP (fun v => v == Val.s c))), kv.2 = f kv.1 := by
    intro kv hkv
    obtain ⟨c, hc, rfl⟩ := List.mem_map.mp hkv
    have hne : ¬ (Val.s c = Val.s "Unlabeled") := fun h => hU (Val.s.inj h ▸ hc)
    simp [hfdef, hne]
  have hvallf : ∀ kv ∈ (labels.dedup.filter (fun v => !((choices.map Val.s).contains v) &&
      !(v == Val.s ""))).map (fun v => (v, labels.countP (fun w => w == v))),
      kv.2 = f kv.1 := by
    intro kv hkv
    obtain ⟨v, hv, rfl⟩ := List.mem_map.mp hkv
    have hvl : v ∈ labels := List.mem_dedup.mp (List.mem_filter.mp hv).1
    have hne : ¬ (v = Val.s "Unlabeled") := fun h => hLab (h ▸ hvl)
    simp [hfdef, hne]
  have hwf1 := wf_foldIns f _ _ hvalcps hwf0
  have hwf2 := wf_foldIns f _ _ hvallf hwf1
  rw [← hd2] at hwf2
  have hkeys : ∀ k, k ∈ d2.map Prod.fst ↔
      (k = Val.s "Unlabeled" ∨ k ∈ choices.map Val.s ∨
        k ∈ labels.dedup.filter (fun v => !((choices.map Val.s).contains v) &&
          !(v == Val.s ""))) := by
    intro k
    rw [hd2, mem_keys_foldIns, mem_keys_foldIns]
    have e1 : k ∈ ((choices.map (fun c =>
        (Val.s c, labels.countP (fun v => v == Val.s c)))).map Prod.fst) ↔
        k ∈ choices.map Val.s := by
      rw [List.map_map]
      simp [Function.comp]
    have e2 : k ∈ (((labels.dedup.filter (fun v => !((choices.map Val.s).contains v) &&
        !(v == Val.s ""))).map (fun v => (v, labels.countP (fun w => w == v)))).map
          Prod.fst) ↔
        k ∈ labels.dedup.filter (fun v => !((choices.map Val.s).contains v) &&
          !(v == Val.s "")) := by
      rw [List.map_map]
      simp [Function.comp]
    rw [e1, e2]
    simp only [List.map_cons, List.map_nil, List.mem_singleton]
    tauto
  refine ⟨?_, ?_, ?_, ?_⟩
  · rw [dictGet?_eq_of_values f _ hwf2.1 _ ((hkeys _).mpr (Or.inl rfl))]
    simp [hfdef]
  · intro c hc
    have hne : ¬ (Val.s c = Val.s "Unlabeled") := fun h => hU (Val.s.inj h ▸ hc)
    rw [dictGet?_eq_of_values f _ hwf2.1 _
      ((hkeys _).mpr (Or.inr (Or.inl (List.mem_map_of_mem _ hc))))]
    simp [hfdef, hne]
  · intro v hv hnotck hne
    have hmemf : v ∈ labels.dedup.filter (fun v => !((choices.map Val.s).contains v) &&
        !(v == Val.s "")) := by
      refine List.mem_filter.mpr ⟨List.mem_dedup.mpr hv, ?_⟩
      simp [hnotck, hne]
    have hneU : ¬ (v = Val.s "Unlabeled") := fun h => hLab (h ▸ hv)
    rw [dictGet?_eq_of_values f _ hwf2.1 _ ((hkeys _).mpr (Or.inr (Or.inr hmemf)))]
    simp [hfdef, hneU]
  · rw [dictSum_eq_sum_keys f _ hwf2.1]
    have hCnodup : (Val.s "Unlabeled" :: (choices.dedup.map Val.s ++
        labels.dedup.filter (fun v => !((choices.map Val.s).contains v) &&
          !(v == Val.s "")))).Nodup := by
      rw [List.nodup_cons]
      constructor
      · intro h
        rcases List.mem_append.mp h with h | h
        · obtain ⟨c, hc, hcc⟩ := List.mem_map.mp h
          exact hU (Val.s.inj hcc ▸ List.mem_dedup.mp hc)
        · exact hLab (List.mem_dedup.mp (List.mem_filter.mp h).1)
      · rw [List.nodup_append]
        refine ⟨(List.nodup_dedup choices).map (fun _ _ h => Val.s.inj h),
          (List.nodup_dedup labels).filter _, ?_⟩
        intro a ha hb
        obtain ⟨c, hc, rfl⟩ := List.mem_map.mp ha
        have h1 : Val.s c ∈ choices.map Val.s :=
          List.mem_map_of_mem Val.s (List.mem_dedup.mp hc)
        have h2 := (List.mem_filter.mp hb).2
        have h3 : (choices.map Val.s).contains (Val.s c) = false := by
          cases hcb : (choices.map Val.s).contains (Val.s c) with
          | false => rfl
          | true =>
            rw [hcb] at h2
            exact absurd h2 (by simp)
        exact (by simpa using h3 : Val.s c ∉ choices.map Val.s) h1
    have hperm : (d2.map Prod.fst).Perm (Val.s "Unlabeled" :: (choices.dedup.map Val.s ++
        labels.dedup.filter (fun v => !((choices.map Val.s).contains v) &&
          !(v == Val.s "")))) := by
      apply (List.perm_ext_iff_of_nodup hwf2.2 hCnodup).mpr
      intro a
      rw [hkeys a]
      simp only [List.mem_cons, List.mem_append, List.mem_map, List.mem_dedup]
      try tauto
    rw [(hperm.map f).sum_eq]
    simp only [List.map_cons, List.sum_cons, List.map_append, List.sum_append]
    have hhead : f (Val.s "Unlabeled") = labels.countP (fun w => w == Val.s "") := by
      simp [hfdef]
    have hmid : (choices.dedup.map Val.s).map f =
        (choices.dedup.map Val.s).map (fun v => labels.count v) := by
      apply List.map_congr_left
      intro v hv
      obtain ⟨c, hc, rfl⟩ := List.mem_map.mp hv
      have hne : ¬ (Val.s c = Val.s "Unlabeled") :=
        fun h => hU (Val.s.inj h ▸ List.mem_dedup.mp hc)
      simp only [hfdef, if_neg hne]
      rfl
    have hright : (labels.dedup.filter (fun v => !((choices.map Val.s).contains v) &&
        !(v == Val.s ""))).map f =
        (labels.dedup.filter (fun v => !((choices.map Val.s).contains v) &&
          !(v == Val.s ""))).map (fun v => labels.count v) := by
      apply List.map_congr_left
      intro v hv
      have hvl : v ∈ labels := List.mem_dedup.mp (List.mem_filter.mp hv).1
      have hne : ¬ (v = Val.s "Unlabeled") := fun h => hLab (h ▸ hvl)
      simp only [hfdef, if_neg hne]
      rfl
    rw [hhead, hmid, hright, List.sum_map_count_dedup_filter_eq_countP]
    have hmid2 : ((choices.dedup.map Val.s).map (fun v => labels.count v)).sum =
        labels.countP (fun v => (choices.map Val.s).contains v && !(v == Val.s "")) := by
      rw [← sum_map_filter_ne_zero (fun v => labels.count v) (choices.dedup.map Val.s)]
      have hqperm : ((choices.dedup.map Val.s).filter
          (fun v => labels.count v != 0)).Perm
          (labels.dedup.filter (fun v => (choices.map Val.s).contains v &&
            !(v == Val.s ""))) := by
        apply (List.perm_ext_iff_of_nodup
          (((List.nodup_dedup choices).map (fun _ _ h => Val.s.inj h)).filter _)
          ((List.nodup_dedup labels).filter _)).mpr
        intro a
        constructor
        · intro ha
          obtain ⟨haM, hanz⟩ := List.mem_filter.mp ha
          have hal : a ∈ labels := by
            have hpos : 0 < labels.count a := Nat.pos_of_ne_zero (by simpa using hanz)
            exact List.count_pos_iff.mp hpos
          refine List.mem_filter.mpr ⟨List.mem_dedup.mpr hal, ?_⟩
          obtain ⟨c, hc, rfl⟩ := List.mem_map.mp haM
          have hcm : Val.s c ∈ choices.map Val.s :=
            List.mem_map_of_mem _ (List.mem_dedup.mp hc)
          have hne : ¬ (Val.s c = Val.s "") :=
            fun h => hE (Val.s.inj h ▸ List.mem_dedup.mp hc)
          simp [hcm, hne]
        · intro ha
          obtain ⟨had, haq⟩ := List.mem_filter.mp ha
          have hal : a ∈ labels := List.mem_dedup.mp had
          simp only [Bool.and_eq_true] at haq
          have hcm : a ∈ choices.map Val.s := by
            simpa using haq.1
          obtain ⟨c, hc, rfl⟩ := List.mem_map.mp hcm
          refine List.mem_filter.mpr ⟨List.mem_map_of_mem _ (List.mem_dedup.mpr hc), ?_⟩
          have hpos : 0 < labels.count (Val.s c) := List.count_pos_iff.mpr hal
          simpa using Nat.pos_iff_ne_zero.mp hpos
      rw [(hqperm.map (fun v => labels.count v)).sum_eq,
        List.sum_map_count_dedup_filter_eq_countP]
    rw [hmid2]
    have hsplit := countP_three_split (choices.map Val.s) labels
    omega

/-- Claim C8 (counterexample): with `label_choices = ["Unlabeled"]` and one
unlabeled row, the literal choice "Unlabeled" overwrites the unlabeled
bucket (Python dict key collision), so the "Unlabeled" bucket reports 0
although exactly one row has an empty label, and the bucket counts sum to
0 ≠ row_count = 1 (the code itself emits its count-mismatch warning). -/
theorem C8_counterexample :
    get_label_counts demoClobber =
      .ok ([(Val.s "Unlabeled", 0)], [Warn.countsMismatch]) ∧
    demoClobber.comp_df.rows.countP
      (fun r => rowGet r REV_LABEL_COL == Val.s "") = 1 ∧
    demoClobber.comp_df.rows.length = 1 := by
  decide

/-- Claim C8 (amended): for a loaded comparison set, provided the literal
string "Unlabeled" is neither a label choice nor a stored label and the
empty string is not a label choice, `get_label_counts` returns a dict in
which the "Unlabeled" bucket counts exactly the empty-label rows, every
configured choice has its own (possibly zero) bucket, every stored label
outside the choices has its own bucket, and the bucket counts sum to
`row_count`. -/
theorem C8_amended (s : RLR)
    (hcomps : s.comps_loaded = true)
    (hU : "Unlabeled" ∉ s.label_choices)
    (hE : "" ∉ s.label_choices)
    (hLab : Val.s "Unlabeled" ∉ s.comp_df.rows.map (fun r => rowGet r REV_LABEL_COL)) :
    ∃ d w, get_label_counts s = .ok (d, w) ∧
      dictGet? d (Val.s "Unlabeled") =
        some ((s.comp_df.rows.map (fun r => rowGet r REV_LABEL_COL)).countP
          (fun v => v == Val.s "")) ∧
      (∀ c ∈ s.label_choices, dictGet? d (Val.s c) =
        some ((s.comp_df.rows.map (fun r => rowGet r REV_LABEL_COL)).countP
          (fun v => v == Val.s c))) ∧
      (∀ v ∈ s.comp_df.rows.map (fun r => rowGet r REV_LABEL_COL),
        v ∉ s.label_choices.map Val.s → v ≠ Val.s "" →
        dictGet? d v = some ((s.comp_df.rows.map
          (fun r => rowGet r REV_LABEL_COL)).countP (fun w => w == v))) ∧
      dictSum d = s.comp_df.rows.length := by
  set labels := s.comp_df.rows.map (fun r => rowGet r REV_LABEL_COL) with hlabels
  set d2 := foldIns (foldIns
      [(Val.s "Unlabeled", labels.countP (fun v => v == Val.s ""))]
      (s.label_choices.map (fun c => (Val.s c, labels.countP (fun v => v == Val.s c)))))
      ((labels.dedup.filter (fun v => !((s.label_choices.map Val.s).contains v) &&
        !(v == Val.s ""))).map (fun v => (v, labels.countP (fun w => w == v)))) with hd2
  obtain ⟨h1, h2, h3, h4⟩ := label_counts_core labels s.label_choices d2 hd2 hU hE hLab
  have hlen : labels.length = s.comp_df.rows.length := by
    rw [hlabels, List.length_map]
  refine ⟨d2, if dictSum d2 ≠ s.comp_df.rows.length then [Warn.countsMismatch] else [],
    ?_, h1, h2, h3, by rw [h4, hlen]⟩
  simp only [get_label_counts, hcomps, Bool.not_true, Bool.false_eq_true, if_false]
  rw [hd2]
  simp only [foldIns, List.foldl_map, hlabels]

/-- Witness for C8_amended: on a concrete session with stored labels
"Match", "" and "Weird" and the default label choices, all hypotheses
hold and the amended bucket/sum property follows. -/
theorem C8_amended_witness :
    demoC8.comps_loaded = true ∧
    "Unlabeled" ∉ demoC8.label_choices ∧
    "" ∉ demoC8.label_choices ∧
    Val.s "Unlabeled" ∉ demoC8.comp_df.rows.map (fun r => rowGet r REV_LABEL_COL) ∧
    (∃ d w, get_label_counts demoC8 = .ok (d, w) ∧
      dictGet? d (Val.s "Unlabeled") =
        some ((demoC8.comp_df.rows.map (fun r => rowGet r REV_LABEL_COL)).countP
          (fun v => v == Val.s "")) ∧
      (∀ c ∈ demoC8.label_choices, dictGet? d (Val.s c) =
        some ((demoC8.comp_df.rows.map (fun r => rowGet r REV_LABEL_COL)).countP
          (fun v => v == Val.s c))) ∧
      (∀ v ∈ demoC8.comp_df.rows.map (fun r => rowGet r REV_LABEL_COL),
        v ∉ demoC8.label_choices.map Val.s → v ≠ Val.s "" →
        dictGet? d v = some ((demoC8.comp_df.rows.map
          (fun r => rowGet r REV_LABEL_COL)).countP (fun w => w == v))) ∧
      dictSum d = demoC8.comp_df.rows.length) :=
  ⟨by decide, by decide, by decide, by decide,
   C8_amended demoC8 (by decide) (by decide) (by decide) (by decide)⟩
